import Mathlib

/-!
# Verification of the TinyUSB MSC BOT driver and the STM32 FSDev DCD

Shallow embedding of two subsystems of the repository:

* the Mass Storage Class (MSC) Bulk-Only Transport device driver
  (`src/class/msc/msc_device.c`); and
* the PMA allocator and OUT-completion logic of the STM32 FSDev device
  controller driver (`src/portable/st/stm32_fsdev/dcd_stm32_fsdev.c`).

Machine integers are modelled as `Nat` with explicit reductions modulo
`2 ^ 32` (`uint32_t`) or `2 ^ 16` (`uint16_t`) at the places where the
C code can wrap.  Fallible operations keep the C control flow; callback
results supplied by the application are parameters (`MscEnv`).
-/

/-- C unsigned 32-bit subtraction `a - b` (wraps around `2 ^ 32`). -/
def usub32 (a b : Nat) : Nat := (a + (4294967296 - b % 4294967296)) % 4294967296

/-- C unsigned 16-bit subtraction `a - b` (wraps around `2 ^ 16`). -/
def usub16 (a b : Nat) : Nat := (a + (65536 - b % 65536)) % 65536

theorem usub32_eq_sub {a b : Nat} (hb : b ≤ a) (ha : a < 4294967296) :
    usub32 a b = a - b := by
  unfold usub32
  have hb32 : b % 4294967296 = b := Nat.mod_eq_of_lt (by omega)
  rw [hb32]
  have h1 : a + (4294967296 - b) = (a - b) + 4294967296 := by omega
  rw [h1, Nat.add_mod_right]
  exact Nat.mod_eq_of_lt (by omega)

theorem usub16_eq_sub {a b : Nat} (hb : b ≤ a) (ha : a < 65536) :
    usub16 a b = a - b := by
  unfold usub16
  have hb16 : b % 65536 = b := Nat.mod_eq_of_lt (by omega)
  rw [hb16]
  have h1 : a + (65536 - b) = (a - b) + 65536 := by omega
  rw [h1, Nat.add_mod_right]
  exact Nat.mod_eq_of_lt (by omega)

/-- Little-endian 32-bit read of four bytes of a buffer starting at `i`
(`tu_unaligned_read32` combined with `tu_le32toh`). -/
def le32 (bs : List Nat) (i : Nat) : Nat :=
  bs.getD i 0 + 256 * bs.getD (i + 1) 0 + 65536 * bs.getD (i + 2) 0 +
    16777216 * bs.getD (i + 3) 0

theorem getD_lt_256 (bs : List Nat) (h : ∀ x ∈ bs, x < 256) (i : Nat) :
    bs.getD i 0 < 256 := by
  induction bs generalizing i with
  | nil => simp [List.getD]
  | cons a t ih =>
    cases i with
    | zero => simpa using h a (by simp)
    | succ j =>
      simpa [List.getD] using ih (fun x hx => h x (by simp [hx])) j

theorem le32_lt (bs : List Nat) (h : ∀ x ∈ bs, x < 256) (i : Nat) :
    le32 bs i < 4294967296 := by
  have h0 := getD_lt_256 bs h i
  have h1 := getD_lt_256 bs h (i + 1)
  have h2 := getD_lt_256 bs h (i + 2)
  have h3 := getD_lt_256 bs h (i + 3)
  unfold le32
  omega

/-! ## SCSI and BOT constants (`msc.h`, `scsi.h` values used by `msc_device.c`) -/

def MSC_CBW_SIGNATURE : Nat := 0x43425355
def MSC_CSW_SIGNATURE : Nat := 0x53425355

def MSC_CSW_STATUS_PASSED : Nat := 0
def MSC_CSW_STATUS_FAILED : Nat := 1
def MSC_CSW_STATUS_PHASE_ERROR : Nat := 2

def SCSI_CMD_TEST_UNIT_READY : Nat := 0x00
def SCSI_CMD_REQUEST_SENSE : Nat := 0x03
def SCSI_CMD_INQUIRY : Nat := 0x12
def SCSI_CMD_MODE_SENSE_6 : Nat := 0x1A
def SCSI_CMD_START_STOP_UNIT : Nat := 0x1B
def SCSI_CMD_PREVENT_ALLOW_MEDIUM_REMOVAL : Nat := 0x1E
def SCSI_CMD_READ_CAPACITY_10 : Nat := 0x25
def SCSI_CMD_READ_FORMAT_CAPACITY : Nat := 0x23
def SCSI_CMD_READ_10 : Nat := 0x28
def SCSI_CMD_WRITE_10 : Nat := 0x2A

def SCSI_SENSE_NOT_READY : Nat := 0x02
def SCSI_SENSE_ILLEGAL_REQUEST : Nat := 0x05
def SCSI_SENSE_DATA_PROTECT : Nat := 0x07

/-- Return codes of the application read10/write10 callbacks.  `BUSY` and
`ERROR` are from `msc_device.h`; `ASYNC` is the remaining distinct negative
sentinel ("sentinel ASYNC" in the spec; the header is not under `src/`). -/
def TUD_MSC_RET_BUSY : Int := 0
def TUD_MSC_RET_ERROR : Int := -1
def TUD_MSC_RET_ASYNC : Int := -2

/-- `tu_bit_test(dir, 7)`: the direction byte's bit 7 selects Data-In. -/
def is_data_in (dir : Nat) : Bool := dir.testBit 7

/-! ## Data model: CBW / CSW / interface state (`msc_device.c` lines 58-93) -/

/-- 31-byte Command Block Wrapper (`msc_cbw_t`). -/
structure msc_cbw_t where
  signature : Nat
  tag : Nat
  total_bytes : Nat
  dir : Nat
  lun : Nat
  cmd_len : Nat
  command : List Nat
deriving DecidableEq, Repr

/-- 13-byte Command Status Wrapper (`msc_csw_t`). -/
structure msc_csw_t where
  signature : Nat
  tag : Nat
  data_residue : Nat
  status : Nat
deriving DecidableEq, Repr

/-- Byte layout of the CBW as received on the wire: signature/tag/total in
little endian at offsets 0/4/8, dir/lun/cmd_len at 12/13/14, and the 16-byte
command block at offset 15 (the `memcpy` into the packed struct). -/
def parse_cbw (bs : List Nat) : msc_cbw_t :=
  { signature := le32 bs 0
    tag := le32 bs 4
    total_bytes := le32 bs 8
    dir := bs.getD 12 0
    lun := bs.getD 13 0
    cmd_len := bs.getD 14 0
    command := [bs.getD 15 0, bs.getD 16 0, bs.getD 17 0, bs.getD 18 0,
                bs.getD 19 0, bs.getD 20 0, bs.getD 21 0, bs.getD 22 0,
                bs.getD 23 0, bs.getD 24 0, bs.getD 25 0, bs.getD 26 0,
                bs.getD 27 0, bs.getD 28 0, bs.getD 29 0, bs.getD 30 0] }

/-- BOT protocol stage (`MSC_STAGE_*`). -/
inductive MscStage where
  | cmd
  | data
  | status
  | status_sent
  | need_reset
deriving DecidableEq, Repr

/-- `mscd_interface_t`.  `pending_io_bound` is a ghost field recording the
size of the I/O handed to the application when an asynchronous transfer is
in flight; it mirrors no C field and only supports stating the environment
contract for `tud_msc_async_io_done`. -/
structure mscd_interface_t where
  cbw : msc_cbw_t
  csw : msc_csw_t
  ep_in : Nat
  ep_out : Nat
  total_len : Nat
  xferred_len : Nat
  stage : MscStage
  sense_key : Nat
  add_sense_code : Nat
  add_sense_qualifier : Nat
  pending_io : Bool
  pending_io_bound : Nat
deriving DecidableEq, Repr

/-- State the USBD core keeps for the two bulk endpoints of the interface:
halt flags and the length of the currently armed transfer (if any).  This
models the `usbd_edpt_xfer` / `usbd_edpt_stall` / `usbd_edpt_ready` calls the
driver makes (spec section 6, downward interface). -/
structure usbd_state where
  in_stalled : Bool
  out_stalled : Bool
  queued_in : Option Nat
  queued_out : Option Nat
deriving DecidableEq, Repr

structure MscSys where
  itf : mscd_interface_t
  usb : usbd_state
deriving DecidableEq, Repr

/-- `usbd_edpt_stall`: halts the endpoint; an armed transfer on it will not
complete any more. -/
def stall_ep (s : MscSys) (ep : Nat) : MscSys :=
  if ep = s.itf.ep_in then
    { s with usb := { s.usb with in_stalled := true, queued_in := none } }
  else if ep = s.itf.ep_out then
    { s with usb := { s.usb with out_stalled := true, queued_out := none } }
  else s

/-- `usbd_edpt_clear_stall`. -/
def clear_stall_ep (s : MscSys) (ep : Nat) : MscSys :=
  if ep = s.itf.ep_in then
    { s with usb := { s.usb with in_stalled := false } }
  else if ep = s.itf.ep_out then
    { s with usb := { s.usb with out_stalled := false } }
  else s

/-- `usbd_edpt_xfer` on the bulk IN endpoint: arm a transfer of `n` bytes. -/
def queue_in (s : MscSys) (n : Nat) : MscSys :=
  { s with usb := { s.usb with queued_in := some n } }

/-- `usbd_edpt_xfer` on the bulk OUT endpoint. -/
def queue_out (s : MscSys) (n : Nat) : MscSys :=
  { s with usb := { s.usb with queued_out := some n } }

/-- `usbd_edpt_ready` on the OUT endpoint: neither busy nor stalled. -/
def edpt_ready_out (s : MscSys) : Bool :=
  s.usb.queued_out == none && !s.usb.out_stalled

/-! ## Pure helpers of `msc_device.c` -/

/-- `rdwr10_get_lba` (lines 149-153): big-endian 32-bit LBA at command
offset 2. -/
def rdwr10_get_lba (command : List Nat) : Nat :=
  16777216 * command.getD 2 0 + 65536 * command.getD 3 0 +
    256 * command.getD 4 0 + command.getD 5 0

/-- `rdwr10_get_blockcount` (lines 155-158): big-endian 16-bit count at
command offset 7. -/
def rdwr10_get_blockcount (cbw : msc_cbw_t) : Nat :=
  256 * cbw.command.getD 7 0 + cbw.command.getD 8 0

/-- `rdwr10_get_blocksize` (lines 160-167); the quotient is truncated to
`uint16_t`. -/
def rdwr10_get_blocksize (cbw : msc_cbw_t) : Nat :=
  let block_count := rdwr10_get_blockcount cbw
  if block_count = 0 then 0 else (cbw.total_bytes / block_count) % 65536

/-- `rdwr10_validate_cmd` (lines 169-197). -/
def rdwr10_validate_cmd (cbw : msc_cbw_t) : Nat :=
  let block_count := rdwr10_get_blockcount cbw
  if cbw.total_bytes = 0 then
    if block_count ≠ 0 then MSC_CSW_STATUS_PHASE_ERROR else MSC_CSW_STATUS_PASSED
  else
    if cbw.command.getD 0 0 = SCSI_CMD_READ_10 ∧ is_data_in cbw.dir = false then
      MSC_CSW_STATUS_PHASE_ERROR
    else if cbw.command.getD 0 0 = SCSI_CMD_WRITE_10 ∧ is_data_in cbw.dir = true then
      MSC_CSW_STATUS_PHASE_ERROR
    else if block_count = 0 then MSC_CSW_STATUS_FAILED
    else if cbw.total_bytes / block_count = 0 then MSC_CSW_STATUS_PHASE_ERROR
    else MSC_CSW_STATUS_PASSED

/-- `tud_msc_set_sense` (lines 255-261); the three fields are `uint8_t`. -/
def tud_msc_set_sense (itf : mscd_interface_t) (key asc ascq : Nat) :
    mscd_interface_t :=
  { itf with sense_key := key % 256, add_sense_code := asc % 256,
             add_sense_qualifier := ascq % 256 }

/-- `set_sense_medium_not_present` (lines 263-266). -/
def set_sense_medium_not_present (itf : mscd_interface_t) : mscd_interface_t :=
  tud_msc_set_sense itf SCSI_SENSE_NOT_READY 0x3A 0x00

/-- Shared pattern "set default sense if not set by callback". -/
def default_sense_mnp (itf : mscd_interface_t) : mscd_interface_t :=
  if itf.sense_key = 0 then set_sense_medium_not_present itf else itf

/-! ## Application callback environment

Each step of the state machine may call application callbacks
(`tud_msc_*_cb`).  Their results for this step are supplied by an `MscEnv`
record; optional (weak) callbacks are `Option`-valued, `none` meaning the
symbol is not provided. -/

structure MscEnv where
  /-- `tud_msc_read10_cb` result as a function of the requested size. -/
  read10_ret : Nat → Int
  /-- `tud_msc_write10_cb` result as a function of the byte count handed in. -/
  write10_ret : Nat → Int
  /-- `tud_msc_scsi_cb` result as a function of the buffer size handed in. -/
  scsi_ret : Nat → Int
  /-- `tud_msc_is_writable_cb` (optional). -/
  is_writable : Option Bool
  /-- `tud_msc_test_unit_ready_cb`. -/
  test_unit_ready : Bool
  /-- `tud_msc_start_stop_cb` (optional). -/
  start_stop : Option Bool
  /-- `tud_msc_prevent_allow_medium_removal_cb` (optional). -/
  prevent_allow : Option Bool
  /-- `tud_msc_capacity_cb`: (block_count, block_size). -/
  capacity : Nat × Nat
  /-- `tud_msc_inquiry2_cb` return value (0 = stub / no response). -/
  inquiry2_ret : Nat
  /-- buffer content produced by `tud_msc_inquiry2_cb` when it responds. -/
  inquiry2_bytes : List Nat
  /-- the 28 identification bytes filled in by `tud_msc_inquiry_cb`. -/
  inquiry_v1_bytes : List Nat
  /-- `tud_msc_request_sense_cb` (optional): return value and buffer. -/
  request_sense : Option (Int × List Nat)
  /-- `tud_msc_get_maxlun_cb` (optional). -/
  get_maxlun : Option Nat

/-- Big-endian byte encodings used by the built-in SCSI responses. -/
def be16bytes (n : Nat) : List Nat := [n / 256 % 256, n % 256]

def be32bytes (n : Nat) : List Nat :=
  [n / 16777216 % 256, n / 65536 % 256, n / 256 % 256, n % 256]

/-- Modelled from the spec: byte layout of `scsi_sense_fixed_resp_t`
(the struct lives in `lib/.../scsi.h`, which is not under `src/`; spec
section 4.5: "REQUEST_SENSE: 18-byte fixed-format response with current
sense triple").  Byte 0 is response_code `0x70` with the valid bit set,
byte 2 the sense key (low nibble, `& 0x0F`), byte 7 the additional sense
length (18 - 8), bytes 12/13 the ASC/ASCQ. -/
def scsi_sense_fixed_resp_bytes (key asc ascq : Nat) : List Nat :=
  [0xF0, 0, key % 16, 0, 0, 0, 0, 10, 0, 0, 0, 0, asc, ascq, 0, 0, 0, 0]

/-- Modelled from the spec: the default 36-byte `scsi_inquiry_resp_t`
(struct in `lib/.../scsi.h`, not under `src/`): removable bit, version 2,
response data format 2, additional_length 36 - 5, then the 28 vendor /
product / revision identification bytes from the v1 callback. -/
def scsi_inquiry_resp_bytes (idbytes : List Nat) : List Nat :=
  [0, 0x80, 2, 2, 31, 0, 0, 0] ++ idbytes.take 28

/-- `proc_builtin_scsi` (lines 628-811).  Returns (resplen, bytes written
to the response buffer, updated interface state); only the sense triple of
the interface state is ever modified.  `TU_VERIFY(0 == tu_memcpy_s(..))`
failures (response larger than the buffer) return 0 like the C code. -/
def proc_builtin_scsi (env : MscEnv) (itf : mscd_interface_t)
    (scsi_cmd : List Nat) (bufsize : Nat) :
    Int × List Nat × mscd_interface_t :=
  let cmd0 := scsi_cmd.getD 0 0
  if cmd0 = SCSI_CMD_TEST_UNIT_READY then
    if env.test_unit_ready then (0, [], itf)
    else (-1, [], default_sense_mnp itf)
  else if cmd0 = SCSI_CMD_START_STOP_UNIT then
    match env.start_stop with
    | none => (0, [], itf)
    | some ok => if ok then (0, [], itf) else (-1, [], default_sense_mnp itf)
  else if cmd0 = SCSI_CMD_PREVENT_ALLOW_MEDIUM_REMOVAL then
    match env.prevent_allow with
    | none => (0, [], itf)
    | some ok => if ok then (0, [], itf) else (-1, [], default_sense_mnp itf)
  else if cmd0 = SCSI_CMD_READ_CAPACITY_10 then
    let block_count := env.capacity.1 % 4294967296
    let block_size := env.capacity.2 % 65536
    if block_count = 0 ∨ block_size = 0 then (-1, [], default_sense_mnp itf)
    else if 8 ≤ bufsize then
      (8, be32bytes (block_count - 1) ++ be32bytes block_size, itf)
    else (0, [], itf)
  else if cmd0 = SCSI_CMD_READ_FORMAT_CAPACITY then
    let block_count := env.capacity.1 % 4294967296
    let block_size := env.capacity.2 % 65536
    if block_count = 0 ∨ block_size = 0 then (-1, [], default_sense_mnp itf)
    else if 12 ≤ bufsize then
      (12, [0, 0, 0, 8] ++ be32bytes block_count ++ [2, 0] ++ be16bytes block_size, itf)
    else (0, [], itf)
  else if cmd0 = SCSI_CMD_INQUIRY then
    if env.inquiry2_ret ≠ 0 then ((env.inquiry2_ret : Int), env.inquiry2_bytes, itf)
    else (36, scsi_inquiry_resp_bytes env.inquiry_v1_bytes, itf)
  else if cmd0 = SCSI_CMD_MODE_SENSE_6 then
    let writable := env.is_writable.getD true
    if 4 ≤ bufsize then
      (4, [3, 0, if writable then 0 else 0x80, 0], itf)
    else (0, [], itf)
  else if cmd0 = SCSI_CMD_REQUEST_SENSE then
    if 18 ≤ bufsize then
      let fixed := scsi_sense_fixed_resp_bytes itf.sense_key itf.add_sense_code
        itf.add_sense_qualifier
      let rb : Int × List Nat :=
        match env.request_sense with
        | none => (18, fixed)
        | some rv => rv
      (rb.1, rb.2, tud_msc_set_sense itf 0 0 0)
    else (0, [], itf)
  else (-1, [], itf)

/-! ## BOT state machine operations (`msc_device.c`) -/

/-- `send_csw` (lines 110-117): data residue is host expectation minus the
bytes actually transferred (`uint32_t` arithmetic), stage becomes
STATUS_SENT and the 13-byte CSW is armed on the IN endpoint. -/
def send_csw (s : MscSys) : MscSys :=
  let residue := usub32 s.itf.cbw.total_bytes s.itf.xferred_len
  let csw1 := { s.itf.csw with data_residue := residue }
  queue_in { s with itf := { s.itf with csw := csw1, stage := MscStage.status_sent } } 13

/-- `prepare_cbw` (lines 119-123): stage CMD, arm a 31-byte OUT read. -/
def prepare_cbw (s : MscSys) : MscSys :=
  queue_out { s with itf := { s.itf with stage := MscStage.cmd } } 31

/-- `fail_scsi_op` (lines 125-147). -/
def fail_scsi_op (s : MscSys) (st : Nat) : MscSys :=
  let residue := usub32 s.itf.cbw.total_bytes s.itf.xferred_len
  let csw1 := { s.itf.csw with status := st, data_residue := residue }
  let itf1 : mscd_interface_t := { s.itf with csw := csw1, stage := MscStage.status }
  let itf2 : mscd_interface_t := if itf1.sense_key = 0 then
      tud_msc_set_sense itf1 SCSI_SENSE_ILLEGAL_REQUEST 0x20 0x00
    else itf1
  let s1 := { s with itf := itf2 }
  if s.itf.cbw.total_bytes ≠ 0 ∧ residue ≠ 0 then
    if is_data_in s.itf.cbw.dir then stall_ep s1 s1.itf.ep_in
    else stall_ep s1 s1.itf.ep_out
  else s1

/-- `proc_stage_status` (lines 199-224); the CXD56 workaround is compiled
out.  If the IN endpoint is stalled the CSW is deferred to the Clear-Stall
request; in SCSI case 5 (Hi > Di) the IN endpoint is stalled before
status. -/
def proc_stage_status (s : MscSys) : MscSys :=
  if s.usb.in_stalled then s
  else if s.itf.xferred_len < s.itf.cbw.total_bytes ∧ is_data_in s.itf.cbw.dir then
    stall_ep s s.itf.ep_in
  else send_csw s

/-- The trailing `if (p_msc->stage == MSC_STAGE_STATUS) proc_stage_status`
of `mscd_xfer_cb` and `proc_async_io_done`. -/
def status_wrap (s : MscSys) : MscSys :=
  if s.itf.stage = MscStage.status then proc_stage_status s else s

/-- `proc_read_io_data` (lines 831-853).  A positive count is armed on the
IN endpoint (`uint16_t` cast); ERROR sets MEDIUM NOT PRESENT and fails the
op; BUSY fakes a zero-byte IN completion so the driver is re-entered. -/
def proc_read_io_data (s : MscSys) (nbytes : Int) : MscSys :=
  if 0 < nbytes then queue_in s (nbytes.toNat % 65536)
  else if nbytes = TUD_MSC_RET_ERROR then
    fail_scsi_op { s with itf := set_sense_medium_not_present s.itf }
      MSC_CSW_STATUS_FAILED
  else if nbytes = TUD_MSC_RET_BUSY then queue_in s 0
  else s

/-- `proc_read10_cmd` (lines 813-829). -/
def proc_read10_cmd (bufsz : Nat) (env : MscEnv) (s : MscSys) : MscSys :=
  let nreq := min bufsz (usub32 s.itf.cbw.total_bytes s.itf.xferred_len)
  let itf1 := { s.itf with pending_io := true, pending_io_bound := nreq }
  let ret := env.read10_ret nreq
  if ret = TUD_MSC_RET_ASYNC then { s with itf := itf1 }
  else proc_read_io_data { s with itf := { itf1 with pending_io := false } } ret

/-- `proc_write10_cmd` (lines 855-875): write-protect check, then arm an
OUT transfer for the next chunk (`uint16_t` cast of the capped size). -/
def proc_write10_cmd (bufsz : Nat) (env : MscEnv) (s : MscSys) : MscSys :=
  let writable := env.is_writable.getD true
  if writable = false then
    fail_scsi_op
      { s with itf := tud_msc_set_sense s.itf SCSI_SENSE_DATA_PROTECT 0x27 0x00 }
      MSC_CSW_STATUS_FAILED
  else
    queue_out s (min bufsz (usub32 s.itf.cbw.total_bytes s.itf.xferred_len) % 65536)

/-- `proc_write_io_data` (lines 894-930). -/
def proc_write_io_data (bufsz : Nat) (env : MscEnv) (s : MscSys)
    (xferred_bytes : Nat) (nbytes : Int) : MscSys :=
  if nbytes < 0 then
    if nbytes = TUD_MSC_RET_ERROR then
      fail_scsi_op { s with itf := set_sense_medium_not_present s.itf }
        MSC_CSW_STATUS_FAILED
    else s
  else
    if nbytes.toNat < xferred_bytes then
      -- memmove of the left-over bytes, then a faked OUT completion with
      -- the adjusted count
      queue_out s (xferred_bytes - nbytes.toNat)
    else
      let xf := (s.itf.xferred_len + xferred_bytes) % 4294967296
      let itf1 := { s.itf with xferred_len := xf }
      if itf1.total_len ≤ xf then
        { s with itf := { itf1 with stage := MscStage.status } }
      else proc_write10_cmd bufsz env { s with itf := itf1 }

/-- `proc_write10_host_data` (lines 878-892). -/
def proc_write10_host_data (bufsz : Nat) (env : MscEnv) (s : MscSys)
    (xferred_bytes : Nat) : MscSys :=
  let itf1 := { s.itf with pending_io := true, pending_io_bound := xferred_bytes }
  let ret := env.write10_ret xferred_bytes
  if ret = TUD_MSC_RET_ASYNC then { s with itf := itf1 }
  else
    proc_write_io_data bufsz env { s with itf := { itf1 with pending_io := false } }
      xferred_bytes ret

/-- `proc_async_io_done` (lines 268-291): deferred completion of an
asynchronous application I/O. -/
def proc_async_io_done (bufsz : Nat) (env : MscEnv) (s : MscSys) (nbytes : Int) :
    MscSys :=
  if s.itf.pending_io = false then s
  else
    let s1 := { s with itf := { s.itf with pending_io := false } }
    let cmd0 := s.itf.cbw.command.getD 0 0
    let s2 :=
      if cmd0 = SCSI_CMD_READ_10 then proc_read_io_data s1 nbytes
      else if cmd0 = SCSI_CMD_WRITE_10 then
        proc_write_io_data bufsz env s1 ((nbytes.emod 4294967296).toNat) nbytes
      else s1
    status_wrap s2

/-- `tud_msc_async_io_done` (lines 293-301): returns whether the call was
accepted together with the argument passed to the deferred
`proc_async_io_done` (a zero byte count is converted to the ERROR
sentinel before deferring). -/
def tud_msc_async_io_done (itf : mscd_interface_t) (bytes_io : Int) :
    Bool × Option Int :=
  if itf.pending_io then
    (true, some (if bytes_io = 0 then TUD_MSC_RET_ERROR else bytes_io))
  else (false, none)

/-- `proc_bot_reset` (lines 341-348) plus, in the model, discarding of the
in-flight bulk transfers: completions of transfers armed before reset
recovery are host/environment behaviour that a recovering host does not
deliver (spec section 5, ordering and cancellation guarantees); the
`queued_*` fields are model bookkeeping of such deliverable completions,
not driver state. -/
def proc_bot_reset (s : MscSys) : MscSys :=
  { s with
    itf := { s.itf with stage := MscStage.cmd, total_len := 0, xferred_len := 0,
                        sense_key := 0, add_sense_code := 0, add_sense_qualifier := 0 }
    usb := { s.usb with queued_in := none, queued_out := none } }

/-! ## `mscd_xfer_cb` (lines 422-620) -/

/-- The `switch (p_msc->stage)` body of `mscd_xfer_cb`; the trailing
status-stage processing is `status_wrap`.  `buf` is the content of the
class endpoint buffer for an OUT completion; `nb` is `xferred_bytes`.
`TU_BREAKPOINT()` is a no-op (release build). -/
def mscd_xfer_cb_core (bufsz : Nat) (env : MscEnv) (s : MscSys) (ep_addr : Nat)
    (buf : List Nat) (nb : Nat) : MscSys :=
  match s.itf.stage with
  | MscStage.cmd =>
    -- complete IN while waiting for CMD is the status of the previous op
    if ep_addr ≠ s.itf.ep_out then s
    else if nb = 31 ∧ le32 buf 0 = MSC_CBW_SIGNATURE then
      let cbw := parse_cbw buf
      let csw : msc_csw_t :=
        { signature := MSC_CSW_SIGNATURE, tag := cbw.tag, data_residue := 0,
          status := MSC_CSW_STATUS_PASSED }
      let itf1 : mscd_interface_t :=
        { s.itf with cbw := cbw, csw := csw, stage := MscStage.data,
                     total_len := cbw.total_bytes, xferred_len := 0 }
      let s1 : MscSys := { s with itf := itf1 }
      let cmd0 := cbw.command.getD 0 0
      if cmd0 = SCSI_CMD_READ_10 ∨ cmd0 = SCSI_CMD_WRITE_10 then
        let st := rdwr10_validate_cmd cbw
        if st ≠ MSC_CSW_STATUS_PASSED then fail_scsi_op s1 st
        else if cbw.total_bytes ≠ 0 then
          if cmd0 = SCSI_CMD_READ_10 then proc_read10_cmd bufsz env s1
          else proc_write10_cmd bufsz env s1
        else
          -- no data transfer, only exists in compliance test suites
          { s1 with itf := { itf1 with stage := MscStage.status } }
      else
        if 0 < cbw.total_bytes ∧ is_data_in cbw.dir = false then
          if bufsz < cbw.total_bytes then
            -- reject non READ10/WRITE10 with large data
            fail_scsi_op s1 MSC_CSW_STATUS_FAILED
          else queue_out s1 (itf1.total_len % 65536)
        else
          let r := proc_builtin_scsi env itf1 cbw.command bufsz
          let itf2 := r.2.2
          let s2 : MscSys := { s1 with itf := itf2 }
          let resplen : Int :=
            if r.1 < 0 ∧ itf2.sense_key = 0 then env.scsi_ret (itf2.total_len % 65536)
            else r.1
          if resplen < 0 then fail_scsi_op s2 MSC_CSW_STATUS_FAILED
          else if resplen = 0 then
            if cbw.total_bytes ≠ 0 then fail_scsi_op s2 MSC_CSW_STATUS_FAILED
            else { s2 with itf := { itf2 with stage := MscStage.status } }
          else
            -- cannot return more than the host expects
            let itf3 : mscd_interface_t :=
              { itf2 with total_len := min resplen.toNat cbw.total_bytes }
            queue_in { s2 with itf := itf3 } (itf3.total_len % 65536)
    else
      -- BOT 6.6.1: invalid CBW, stall both endpoints until reset recovery
      stall_ep (stall_ep { s with itf := { s.itf with stage := MscStage.need_reset } }
        s.itf.ep_in) s.itf.ep_out
  | MscStage.data =>
    if bufsz < nb then s  -- TU_ASSERT sanity check against buffer overflow
    else
      let cmd0 := s.itf.cbw.command.getD 0 0
      if cmd0 = SCSI_CMD_READ_10 then
        let xf := (s.itf.xferred_len + nb) % 4294967296
        let itf1 : mscd_interface_t := { s.itf with xferred_len := xf }
        if itf1.total_len ≤ xf then
          { s with itf := { itf1 with stage := MscStage.status } }
        else proc_read10_cmd bufsz env { s with itf := itf1 }
      else if cmd0 = SCSI_CMD_WRITE_10 then
        proc_write10_host_data bufsz env s nb
      else
        let xf := (s.itf.xferred_len + nb) % 4294967296
        let itf1 : mscd_interface_t := { s.itf with xferred_len := xf }
        let s1 : MscSys := { s with itf := itf1 }
        let s2 : MscSys :=
          if is_data_in s.itf.cbw.dir = false then
            if env.scsi_ret (s.itf.total_len % 65536) < 0 then
              fail_scsi_op s1 MSC_CSW_STATUS_FAILED
            else s1
          else s1
        if s2.itf.total_len ≤ s2.itf.xferred_len then
          { s2 with itf := { s2.itf with stage := MscStage.status } }
        else s2
  | MscStage.status => s  -- processed immediately after this switch
  | MscStage.status_sent =>
    if ep_addr = s.itf.ep_in ∧ nb = 13 then
      -- complete callback is invoked (no interface state), then re-arm CBW
      prepare_cbw s
    else s  -- unknown transfer ended here, ignore it
  | MscStage.need_reset => s

/-- `mscd_xfer_cb`: switch body followed by the STATUS-stage processing. -/
def mscd_xfer_cb (bufsz : Nat) (env : MscEnv) (s : MscSys) (ep_addr : Nat)
    (buf : List Nat) (nb : Nat) : MscSys :=
  status_wrap (mscd_xfer_cb_core bufsz env s ep_addr buf nb)

/-! ## `mscd_control_xfer_cb` (lines 353-420) -/

/-- `tusb_control_request_t` fields used by the driver. -/
structure tusb_control_request_t where
  recipient : Nat
  rtype : Nat
  bRequest : Nat
  wValue : Nat
  wIndex : Nat
  wLength : Nat
deriving DecidableEq, Repr

def TUSB_REQ_TYPE_STANDARD : Nat := 0
def TUSB_REQ_TYPE_CLASS : Nat := 1
def TUSB_REQ_RCPT_ENDPOINT : Nat := 2
def TUSB_REQ_CLEAR_FEATURE : Nat := 1
def TUSB_REQ_FEATURE_EDPT_HALT : Nat := 0
def MSC_REQ_GET_MAX_LUN : Nat := 0xFE
def MSC_REQ_RESET : Nat := 0xFF
def CONTROL_STAGE_SETUP : Nat := 1

def is_clear_feature_halt (r : tusb_control_request_t) : Prop :=
  r.rtype = TUSB_REQ_TYPE_STANDARD ∧ r.recipient = TUSB_REQ_RCPT_ENDPOINT ∧
    r.bRequest = TUSB_REQ_CLEAR_FEATURE ∧ r.wValue = TUSB_REQ_FEATURE_EDPT_HALT

instance (r : tusb_control_request_t) : Decidable (is_clear_feature_halt r) := by
  unfold is_clear_feature_halt
  infer_instance

def is_bot_reset (r : tusb_control_request_t) : Prop :=
  r.rtype = TUSB_REQ_TYPE_CLASS ∧ r.bRequest = MSC_REQ_RESET ∧
    r.wValue = 0 ∧ r.wLength = 0

instance (r : tusb_control_request_t) : Decidable (is_bot_reset r) := by
  unfold is_bot_reset
  infer_instance

/-- `mscd_control_xfer_cb` (lines 353-420): returns the new state and
whether the request was accepted (`false` stalls the control endpoint). -/
def mscd_control_xfer_cb (env : MscEnv) (s : MscSys) (cstage : Nat)
    (request : tusb_control_request_t) : MscSys × Bool :=
  if cstage ≠ CONTROL_STAGE_SETUP then (s, true)
  else if is_clear_feature_halt request then
    let ep_addr := request.wIndex % 256
    if s.itf.stage = MscStage.need_reset then
      -- reset recovery is required; Clear Stall cannot resolve this
      (stall_ep s ep_addr, true)
    else if ep_addr = s.itf.ep_in then
      (if s.itf.stage = MscStage.status then send_csw s else s, true)
    else if ep_addr = s.itf.ep_out then
      (if s.itf.stage = MscStage.cmd ∧ edpt_ready_out s then prepare_cbw s else s,
       true)
    else (s, true)
  else if request.rtype ≠ TUSB_REQ_TYPE_CLASS then (s, false)
  else if request.bRequest = MSC_REQ_RESET then
    if request.wValue = 0 ∧ request.wLength = 0 then (proc_bot_reset s, true)
    else (s, false)
  else if request.bRequest = MSC_REQ_GET_MAX_LUN then
    if request.wValue = 0 ∧ request.wLength = 1 then
      if env.get_maxlun.getD 1 = 0 then (s, false) else (s, true)
    else (s, false)
  else (s, false)

/-- A control request as delivered by the USBD core: for a Clear-Feature
(ENDPOINT_HALT) the core un-stalls the endpoint before notifying the class
driver (spec sections 4.4 and 6; the core is out of scope of `src/`). -/
def control_step (env : MscEnv) (s : MscSys) (request : tusb_control_request_t) :
    MscSys :=
  let s1 := if is_clear_feature_halt request then
      clear_stall_ep s (request.wIndex % 256)
    else s
  (mscd_control_xfer_cb env s1 CONTROL_STAGE_SETUP request).1

/-! ## Event-level semantics -/

/-- Events delivered to the MSC driver by the USBD task: bulk transfer
completions, control requests (at the SETUP stage), and deferred
asynchronous I/O completions. -/
inductive MscEvent where
  | xfer (ep_addr : Nat) (buf : List Nat) (nb : Nat)
  | ctrl (request : tusb_control_request_t)
  | asyncDone (bytes_io : Int)

/-- One driver step.  A bulk completion first releases the armed transfer
on its endpoint (the USBD core marks the endpoint not-busy before invoking
the class driver). -/
def mscd_step (bufsz : Nat) (env : MscEnv) (s : MscSys) : MscEvent → MscSys
  | MscEvent.xfer ep_addr buf nb =>
    let s1 : MscSys :=
      if ep_addr = s.itf.ep_in then
        { s with usb := { s.usb with queued_in := none } }
      else if ep_addr = s.itf.ep_out then
        { s with usb := { s.usb with queued_out := none } }
      else s
    mscd_xfer_cb bufsz env s1 ep_addr buf nb
  | MscEvent.ctrl request => control_step env s request
  | MscEvent.asyncDone bytes_io =>
    match tud_msc_async_io_done s.itf bytes_io with
    | (_, some nbytes) => proc_async_io_done bufsz env s nbytes
    | (_, none) => s

/-- Environment validity of an event (spec section 5 ordering guarantees):
a bulk completion reports at most the armed length of its endpoint and,
for OUT, carries byte values; no MSC event other than the deferred
completion is delivered while an asynchronous I/O is in flight; the
application completes the asynchronous I/O with at most the byte count it
was handed. -/
def validEvent (s : MscSys) : MscEvent → Prop
  | MscEvent.xfer ep_addr buf nb =>
    s.itf.pending_io = false ∧
    ((ep_addr = s.itf.ep_in ∧ s.usb.queued_in ≠ none ∧
        nb ≤ s.usb.queued_in.getD 0) ∨
     (ep_addr = s.itf.ep_out ∧ s.usb.queued_out ≠ none ∧
        nb ≤ s.usb.queued_out.getD 0 ∧ ∀ b ∈ buf, b < 256))
  | MscEvent.ctrl _ => s.itf.pending_io = false
  | MscEvent.asyncDone bytes_io =>
    s.itf.pending_io = true → bytes_io ≤ (s.itf.pending_io_bound : Int)

instance validEvent_dec (s : MscSys) (e : MscEvent) : Decidable (validEvent s e) := by
  cases e <;> (unfold validEvent; infer_instance)

/-- State invariant of the BOT engine.  Beyond the counter ordering of the
spec (`0 ≤ xferred_len ≤ total_len ≤ cbw.total_bytes`) it records what the
armed transfers and a pending asynchronous I/O may still contribute, the
direction facts a validated READ10/WRITE10 command guarantees, and the
residue of a CSW that has been sent. -/
def mscd_inv (s : MscSys) : Prop :=
  s.itf.xferred_len ≤ s.itf.total_len ∧
  s.itf.total_len ≤ s.itf.cbw.total_bytes ∧
  s.itf.cbw.total_bytes < 4294967296 ∧
  s.itf.ep_in ≠ s.itf.ep_out ∧
  (s.itf.stage = MscStage.cmd → s.usb.queued_in = none) ∧
  (s.itf.stage = MscStage.data →
    ((s.itf.cbw.command.getD 0 0 = SCSI_CMD_READ_10 ∨
      s.itf.cbw.command.getD 0 0 = SCSI_CMD_WRITE_10) →
        s.itf.total_len = s.itf.cbw.total_bytes) ∧
    (s.itf.cbw.command.getD 0 0 = SCSI_CMD_READ_10 →
        is_data_in s.itf.cbw.dir = true) ∧
    (s.itf.cbw.command.getD 0 0 = SCSI_CMD_WRITE_10 →
        is_data_in s.itf.cbw.dir = false) ∧
    (is_data_in s.itf.cbw.dir = true → s.usb.queued_out = none) ∧
    (s.itf.cbw.command.getD 0 0 = SCSI_CMD_WRITE_10 → s.usb.queued_in = none) ∧
    s.itf.xferred_len + s.usb.queued_in.getD 0 + s.usb.queued_out.getD 0
      ≤ s.itf.total_len) ∧
  (s.itf.stage = MscStage.status_sent →
    s.itf.csw.data_residue = s.itf.cbw.total_bytes - s.itf.xferred_len) ∧
  (s.itf.pending_io = true →
    s.itf.stage = MscStage.data ∧
    s.itf.xferred_len + s.itf.pending_io_bound ≤ s.itf.total_len ∧
    s.usb.queued_in = none ∧ s.usb.queued_out = none)

instance mscd_inv_dec (s : MscSys) : Decidable (mscd_inv s) := by
  unfold mscd_inv
  infer_instance

/-- State after `mscd_init`/`mscd_reset` (`tu_memclr`) and `mscd_open`
(lines 306-339): all-zero interface except the endpoint addresses from the
descriptor, then `prepare_cbw` arms the 31-byte CBW read. -/
def mscd_open_init (ep_in ep_out : Nat) : MscSys :=
  { itf := { cbw := { signature := 0, tag := 0, total_bytes := 0, dir := 0,
                      lun := 0, cmd_len := 0, command := List.replicate 16 0 }
             csw := { signature := 0, tag := 0, data_residue := 0, status := 0 }
             ep_in := ep_in, ep_out := ep_out, total_len := 0, xferred_len := 0,
             stage := MscStage.cmd, sense_key := 0, add_sense_code := 0,
             add_sense_qualifier := 0, pending_io := false, pending_io_bound := 0 }
    usb := { in_stalled := false, out_stalled := false, queued_in := none,
             queued_out := some 31 } }

/-! ## STM32 FSDev DCD: PMA allocation (`dcd_stm32_fsdev.c`) -/

/-- Modelled from the spec (section 4.1; the helper lives in
`fsdev_common.h`, which is not under `src/`): `pma_align_buffer_size`
rounds a length up per the hardware block-size table — blocks of 2 bytes
up to 62 bytes, otherwise blocks of 32 bytes. -/
def pma_align_buffer_size (len : Nat) : Nat :=
  if len ≤ 62 then 2 * ((len + 1) / 2) else 32 * ((len + 31) / 32)

/-- The allocator state: `static uint16_t ep_buf_ptr` (line 172). -/
structure pma_alloc_state where
  ep_buf_ptr : Nat
deriving DecidableEq, Repr

/-- `dcd_pma_alloc` (lines 534-553): bump allocation; with double
buffering two contiguous buffers are taken.  Returns the new state and the
address of the (first) buffer.  The cursor is a `uint16_t`. -/
def dcd_pma_alloc (st : pma_alloc_state) (len : Nat) (dbuf : Bool) :
    pma_alloc_state × Nat :=
  let aligned := pma_align_buffer_size len
  let addr := st.ep_buf_ptr
  let p1 := (st.ep_buf_ptr + aligned) % 65536
  if dbuf then ({ ep_buf_ptr := (p1 + aligned) % 65536 }, addr)
  else ({ ep_buf_ptr := p1 }, addr)

/-- PMA effect of `handle_bus_reset` (lines 268-285): the cursor is
reinitialized to `FSDEV_BTABLE_BASE + 8 * FSDEV_EP_COUNT`, after which
`edpt0_open` allocates the two endpoint-0 buffers.  Returns the final
allocator state and the two endpoint-0 buffer addresses. -/
def handle_bus_reset_pma (btable_base fsdev_ep_count ep0_size : Nat) :
    pma_alloc_state × Nat × Nat :=
  let st0 : pma_alloc_state := { ep_buf_ptr := btable_base + 8 * fsdev_ep_count }
  let r0 := dcd_pma_alloc st0 ep0_size false
  let r1 := dcd_pma_alloc r0.1 ep0_size false
  (r1.1, r0.2, r1.2)

/-- PMA effect of `dcd_edpt_close_all` (lines 666-682): the cursor is
reset to `FSDEV_BTABLE_BASE + 8 * CFG_TUD_ENDPPOINT_MAX +
2 * CFG_TUD_ENDPOINT0_SIZE`. -/
def dcd_edpt_close_all_pma (btable_base endpoint_max ep0_size : Nat) :
    pma_alloc_state :=
  { ep_buf_ptr := btable_base + 8 * endpoint_max + 2 * ep0_size }

/-! ## STM32 FSDev DCD: OUT-completion handler (`dcd_ep_ctr_rx_handler`,
lines 326-432) -/

/-- The `USB_EP_TYPE` field of the endpoint register. -/
inductive EpKind where
  | control
  | interrupt
  | bulk
  | iso
deriving DecidableEq, Repr

/-- The endpoint register bits read by the RX handler. -/
structure ep_reg_state where
  ctr_rx : Bool
  setup : Bool
  ep_kind : EpKind
  dtog_rx : Bool
  ep_addr_field : Nat
deriving DecidableEq, Repr

/-- The two RX BTABLE entries of the endpoint (buffer 0 / buffer 1; a
non-isochronous endpoint uses buffer 1, `BTABLE_BUF_RX`). -/
structure btable_rx_state where
  addr0 : Nat
  count0 : Nat
  addr1 : Nat
  count1 : Nat
deriving DecidableEq, Repr

/-- `xfer_ctl_t` (lines 139-147), RX-relevant fields; `has_ff` is whether
the transfer targets a FIFO rather than a linear buffer. -/
structure xfer_ctl_t where
  has_ff : Bool
  total_len : Nat
  queued_len : Nat
  max_packet_size : Nat
deriving DecidableEq, Repr

/-- Observable actions of the RX handler: PMA copies, the completion
report to the upper layer, BTABLE bufsize writes and register updates. -/
inductive RxAction where
  | copy_to_fifo (addr count : Nat)
  | copy_to_buffer (addr offset count : Nat)
  | xfer_complete (ep_addr qlen : Nat)
  | setup_received
  | ep0_reset_to_nak
  | set_rx_bufsize (buf_id n : Nat)
  | set_rx_status_valid
  | clear_rx_ctr
deriving DecidableEq, Repr

/-- `dcd_ep_ctr_rx_handler` (lines 326-432).  The errata delay and the
`pcd_*` register helpers are represented by their net effects in the
action list.  Returns the updated transfer context and the actions in
program order. -/
def dcd_ep_ctr_rx_handler (ep0_size : Nat) (reg : ep_reg_state)
    (bt : btable_rx_state) (xfer : xfer_ctl_t) : xfer_ctl_t × List RxAction :=
  if reg.ctr_rx = false then (xfer, [])
  else if reg.setup then
    -- setup packets must be exactly 8 bytes; otherwise ignore and retry
    if bt.count1 = 8 then (xfer, [RxAction.setup_received, RxAction.ep0_reset_to_nak])
    else (xfer, [])
  else
    let acts0 := if reg.ep_addr_field ≠ 0 then [RxAction.clear_rx_ctr] else []
    let buf_id := if reg.ep_kind = EpKind.iso then (if reg.dtog_rx then 0 else 1)
      else 1
    let count := if buf_id = 0 then bt.count0 else bt.count1
    let addr := if buf_id = 0 then bt.addr0 else bt.addr1
    let xfer1 : xfer_ctl_t :=
      if count ≠ 0 then { xfer with queued_len := (xfer.queued_len + count) % 65536 }
      else xfer
    let acts1 :=
      if count ≠ 0 then
        [if xfer.has_ff then RxAction.copy_to_fifo addr count
         else RxAction.copy_to_buffer addr xfer.queued_len count]
      else []
    let acts2 :=
      if count < xfer.max_packet_size ∨ xfer1.queued_len = xfer1.total_len then
        [RxAction.xfer_complete reg.ep_addr_field xfer1.queued_len]
      else
        (if reg.ep_kind ≠ EpKind.iso then
          [RxAction.set_rx_bufsize 1
            (min (usub16 xfer1.total_len xfer1.queued_len) xfer1.max_packet_size)]
        else []) ++ [RxAction.set_rx_status_valid]
    let acts3 := if reg.ep_addr_field = 0 then
        [RxAction.set_rx_bufsize 1 ep0_size, RxAction.clear_rx_ctr]
      else []
    (xfer1, acts0 ++ acts1 ++ acts2 ++ acts3)

/-! ## Basic projection lemmas -/

@[simp] theorem stall_ep_itf (s : MscSys) (ep : Nat) : (stall_ep s ep).itf = s.itf := by
  unfold stall_ep
  split_ifs <;> rfl

@[simp] theorem clear_stall_ep_itf (s : MscSys) (ep : Nat) :
    (clear_stall_ep s ep).itf = s.itf := by
  unfold clear_stall_ep
  split_ifs <;> rfl

@[simp] theorem queue_in_itf (s : MscSys) (n : Nat) : (queue_in s n).itf = s.itf := rfl

@[simp] theorem queue_out_itf (s : MscSys) (n : Nat) : (queue_out s n).itf = s.itf := rfl

@[simp] theorem queue_in_queued_in (s : MscSys) (n : Nat) :
    (queue_in s n).usb.queued_in = some n := rfl

@[simp] theorem queue_in_queued_out (s : MscSys) (n : Nat) :
    (queue_in s n).usb.queued_out = s.usb.queued_out := rfl

@[simp] theorem queue_out_queued_out (s : MscSys) (n : Nat) :
    (queue_out s n).usb.queued_out = some n := rfl

@[simp] theorem queue_out_queued_in (s : MscSys) (n : Nat) :
    (queue_out s n).usb.queued_in = s.usb.queued_in := rfl

theorem fail_scsi_op_itf (s : MscSys) (st : Nat) :
    (fail_scsi_op s st).itf.stage = MscStage.status ∧
    (fail_scsi_op s st).itf.xferred_len = s.itf.xferred_len ∧
    (fail_scsi_op s st).itf.total_len = s.itf.total_len ∧
    (fail_scsi_op s st).itf.cbw = s.itf.cbw ∧
    (fail_scsi_op s st).itf.ep_in = s.itf.ep_in ∧
    (fail_scsi_op s st).itf.ep_out = s.itf.ep_out ∧
    (fail_scsi_op s st).itf.pending_io = s.itf.pending_io ∧
    (fail_scsi_op s st).itf.csw.status = st ∧
    (fail_scsi_op s st).itf.csw.data_residue
      = usub32 s.itf.cbw.total_bytes s.itf.xferred_len := by
  simp only [fail_scsi_op]
  split_ifs <;> simp [tud_msc_set_sense]

/-! ## Invariant helper lemmas -/

theorem mscd_inv_basics (s : MscSys) (h : mscd_inv s) :
    s.itf.xferred_len ≤ s.itf.total_len ∧
    s.itf.total_len ≤ s.itf.cbw.total_bytes ∧
    s.itf.cbw.total_bytes < 4294967296 ∧
    s.itf.ep_in ≠ s.itf.ep_out :=
  ⟨h.1, h.2.1, h.2.2.1, h.2.2.2.1⟩

theorem mscd_inv_pending_false_of_stage (s : MscSys) (h : mscd_inv s)
    (hst : s.itf.stage ≠ MscStage.data) : s.itf.pending_io = false := by
  cases hp : s.itf.pending_io with
  | false => rfl
  | true => exact absurd (h.2.2.2.2.2.2.2 hp).1 hst

theorem mscd_inv_data_facts (s : MscSys) (h : mscd_inv s)
    (hst : s.itf.stage = MscStage.data) :
    ((s.itf.cbw.command.getD 0 0 = SCSI_CMD_READ_10 ∨
      s.itf.cbw.command.getD 0 0 = SCSI_CMD_WRITE_10) →
        s.itf.total_len = s.itf.cbw.total_bytes) ∧
    (s.itf.cbw.command.getD 0 0 = SCSI_CMD_READ_10 →
        is_data_in s.itf.cbw.dir = true) ∧
    (s.itf.cbw.command.getD 0 0 = SCSI_CMD_WRITE_10 →
        is_data_in s.itf.cbw.dir = false) ∧
    (is_data_in s.itf.cbw.dir = true → s.usb.queued_out = none) ∧
    (s.itf.cbw.command.getD 0 0 = SCSI_CMD_WRITE_10 → s.usb.queued_in = none) ∧
    s.itf.xferred_len + s.usb.queued_in.getD 0 + s.usb.queued_out.getD 0
      ≤ s.itf.total_len :=
  h.2.2.2.2.2.1 hst

theorem mscd_inv_pending_facts (s : MscSys) (h : mscd_inv s)
    (hp : s.itf.pending_io = true) :
    s.itf.stage = MscStage.data ∧
    s.itf.xferred_len + s.itf.pending_io_bound ≤ s.itf.total_len ∧
    s.usb.queued_in = none ∧ s.usb.queued_out = none :=
  h.2.2.2.2.2.2.2 hp

theorem mscd_inv_cmd_queued_in (s : MscSys) (h : mscd_inv s)
    (hst : s.itf.stage = MscStage.cmd) : s.usb.queued_in = none :=
  h.2.2.2.2.1 hst

theorem mscd_inv_status_sent_residue (s : MscSys) (h : mscd_inv s)
    (hst : s.itf.stage = MscStage.status_sent) :
    s.itf.csw.data_residue = s.itf.cbw.total_bytes - s.itf.xferred_len :=
  h.2.2.2.2.2.2.1 hst

theorem mscd_inv_of_status (s : MscSys)
    (h1 : s.itf.stage = MscStage.status)
    (h2 : s.itf.xferred_len ≤ s.itf.total_len)
    (h3 : s.itf.total_len ≤ s.itf.cbw.total_bytes)
    (h4 : s.itf.cbw.total_bytes < 4294967296)
    (h5 : s.itf.ep_in ≠ s.itf.ep_out)
    (h6 : s.itf.pending_io = false) :
    mscd_inv s := by
  refine ⟨h2, h3, h4, h5, ?_, ?_, ?_, ?_⟩ <;> intro hx <;> simp_all

theorem mscd_inv_of_need_reset (s : MscSys)
    (h1 : s.itf.stage = MscStage.need_reset)
    (h2 : s.itf.xferred_len ≤ s.itf.total_len)
    (h3 : s.itf.total_len ≤ s.itf.cbw.total_bytes)
    (h4 : s.itf.cbw.total_bytes < 4294967296)
    (h5 : s.itf.ep_in ≠ s.itf.ep_out)
    (h6 : s.itf.pending_io = false) :
    mscd_inv s := by
  refine ⟨h2, h3, h4, h5, ?_, ?_, ?_, ?_⟩ <;> intro hx <;> simp_all

theorem mscd_inv_of_cmd (s : MscSys)
    (h1 : s.itf.stage = MscStage.cmd)
    (h2 : s.itf.xferred_len ≤ s.itf.total_len)
    (h3 : s.itf.total_len ≤ s.itf.cbw.total_bytes)
    (h4 : s.itf.cbw.total_bytes < 4294967296)
    (h5 : s.itf.ep_in ≠ s.itf.ep_out)
    (h6 : s.itf.pending_io = false)
    (h7 : s.usb.queued_in = none) :
    mscd_inv s := by
  refine ⟨h2, h3, h4, h5, ?_, ?_, ?_, ?_⟩ <;> intro hx <;> simp_all

theorem mscd_inv_of_status_sent (s : MscSys)
    (h1 : s.itf.stage = MscStage.status_sent)
    (h2 : s.itf.xferred_len ≤ s.itf.total_len)
    (h3 : s.itf.total_len ≤ s.itf.cbw.total_bytes)
    (h4 : s.itf.cbw.total_bytes < 4294967296)
    (h5 : s.itf.ep_in ≠ s.itf.ep_out)
    (h6 : s.itf.pending_io = false)
    (h7 : s.itf.csw.data_residue = s.itf.cbw.total_bytes - s.itf.xferred_len) :
    mscd_inv s := by
  refine ⟨h2, h3, h4, h5, ?_, ?_, ?_, ?_⟩ <;> intro hx <;> simp_all

theorem mscd_inv_of_data (s : MscSys)
    (h1 : s.itf.stage = MscStage.data)
    (h2 : s.itf.xferred_len ≤ s.itf.total_len)
    (h3 : s.itf.total_len ≤ s.itf.cbw.total_bytes)
    (h4 : s.itf.cbw.total_bytes < 4294967296)
    (h5 : s.itf.ep_in ≠ s.itf.ep_out)
    (h6 : s.itf.cbw.command.getD 0 0 = SCSI_CMD_READ_10 ∨
          s.itf.cbw.command.getD 0 0 = SCSI_CMD_WRITE_10 →
            s.itf.total_len = s.itf.cbw.total_bytes)
    (h7 : s.itf.cbw.command.getD 0 0 = SCSI_CMD_READ_10 →
            is_data_in s.itf.cbw.dir = true)
    (h8 : s.itf.cbw.command.getD 0 0 = SCSI_CMD_WRITE_10 →
            is_data_in s.itf.cbw.dir = false)
    (h9 : is_data_in s.itf.cbw.dir = true → s.usb.queued_out = none)
    (h10 : s.itf.cbw.command.getD 0 0 = SCSI_CMD_WRITE_10 → s.usb.queued_in = none)
    (h11 : s.itf.xferred_len + s.usb.queued_in.getD 0 + s.usb.queued_out.getD 0
             ≤ s.itf.total_len)
    (h13 : s.itf.pending_io = true →
             s.itf.xferred_len + s.itf.pending_io_bound ≤ s.itf.total_len ∧
             s.usb.queued_in = none ∧ s.usb.queued_out = none) :
    mscd_inv s := by
  refine ⟨h2, h3, h4, h5, by simp_all,
    fun _ => ⟨h6, h7, h8, h9, h10, h11⟩, by simp_all,
    fun hp => ⟨h1, (h13 hp).1, (h13 hp).2.1, (h13 hp).2.2⟩⟩

/-- Stalling an endpoint only clears an armed transfer, which every
invariant clause tolerates. -/
theorem mscd_inv_stall_ep (s : MscSys) (ep : Nat) (h : mscd_inv s) :
    mscd_inv (stall_ep s ep) := by
  unfold stall_ep
  obtain ⟨h1, h2, h3, h4, h5, h6, h7, h8⟩ := h
  split_ifs with he1 he2
  · refine ⟨h1, h2, h3, h4, fun _ => rfl, ?_, h7, ?_⟩
    · intro hd
      obtain ⟨d1, d2, d3, d4, d5, d6⟩ := h6 hd
      exact ⟨d1, d2, d3, d4, fun _ => rfl,
        by simpa using (by omega :
          s.itf.xferred_len + s.usb.queued_out.getD 0 ≤ s.itf.total_len)⟩
    · intro hp
      obtain ⟨p1, p2, p3, p4⟩ := h8 hp
      exact ⟨p1, p2, rfl, p4⟩
  · refine ⟨h1, h2, h3, h4, h5, ?_, h7, ?_⟩
    · intro hd
      obtain ⟨d1, d2, d3, d4, d5, d6⟩ := h6 hd
      exact ⟨d1, d2, d3, fun _ => rfl, d5,
        by simpa using (by omega :
          s.itf.xferred_len + s.usb.queued_in.getD 0 ≤ s.itf.total_len)⟩
    · intro hp
      obtain ⟨p1, p2, p3, p4⟩ := h8 hp
      exact ⟨p1, p2, p3, rfl⟩
  · exact ⟨h1, h2, h3, h4, h5, h6, h7, h8⟩

theorem mscd_inv_clear_stall_ep (s : MscSys) (ep : Nat) :
    mscd_inv (clear_stall_ep s ep) ↔ mscd_inv s := by
  unfold clear_stall_ep
  split_ifs <;> exact Iff.rfl

theorem mscd_inv_send_csw (s : MscSys)
    (h2 : s.itf.xferred_len ≤ s.itf.total_len)
    (h3 : s.itf.total_len ≤ s.itf.cbw.total_bytes)
    (h4 : s.itf.cbw.total_bytes < 4294967296)
    (h5 : s.itf.ep_in ≠ s.itf.ep_out)
    (h6 : s.itf.pending_io = false) :
    mscd_inv (send_csw s) := by
  have hres : usub32 s.itf.cbw.total_bytes s.itf.xferred_len
      = s.itf.cbw.total_bytes - s.itf.xferred_len :=
    usub32_eq_sub (le_trans h2 h3) h4
  unfold send_csw queue_in
  refine ⟨h2, h3, h4, h5, ?_, ?_, ?_, ?_⟩ <;> intro hx <;> simp_all

theorem mscd_inv_proc_stage_status (s : MscSys)
    (h1 : s.itf.stage = MscStage.status)
    (h2 : s.itf.xferred_len ≤ s.itf.total_len)
    (h3 : s.itf.total_len ≤ s.itf.cbw.total_bytes)
    (h4 : s.itf.cbw.total_bytes < 4294967296)
    (h5 : s.itf.ep_in ≠ s.itf.ep_out)
    (h6 : s.itf.pending_io = false) :
    mscd_inv (proc_stage_status s) := by
  unfold proc_stage_status
  split_ifs with ha hb
  · exact mscd_inv_of_status s h1 h2 h3 h4 h5 h6
  · exact mscd_inv_stall_ep _ _ (mscd_inv_of_status s h1 h2 h3 h4 h5 h6)
  · exact mscd_inv_send_csw s h2 h3 h4 h5 h6

theorem mscd_inv_status_wrap (s : MscSys) (h : mscd_inv s) :
    mscd_inv (status_wrap s) := by
  unfold status_wrap
  split_ifs with hst
  · obtain ⟨h2, h3, h4, h5⟩ := mscd_inv_basics s h
    exact mscd_inv_proc_stage_status s hst h2 h3 h4 h5
      (mscd_inv_pending_false_of_stage s h (by simp [hst]))
  · exact h

/-! ## Claim C3: the `rdwr10_validate_cmd` case ladder -/

set_option maxHeartbeats 2000000 in
/-- C3.  For every CBW whose opcode is READ_10 or WRITE_10,
`rdwr10_validate_cmd` returns: PHASE_ERROR when `total_bytes` is 0 but the
block count is nonzero; PHASE_ERROR when `total_bytes` is nonzero and the
opcode direction contradicts the CBW direction bit (READ_10 with dir OUT,
WRITE_10 with dir IN); FAILED when `total_bytes` is nonzero and the block
count is 0; PHASE_ERROR when `total_bytes` and the block count are nonzero
and `total_bytes / block_count = 0`; and PASSED in every other case
(including `total_bytes = 0` with `block_count = 0`). -/
theorem C3_rdwr10_validate_cases (cbw : msc_cbw_t)
    (_hop : cbw.command.getD 0 0 = SCSI_CMD_READ_10 ∨
           cbw.command.getD 0 0 = SCSI_CMD_WRITE_10) :
    rdwr10_validate_cmd cbw =
      if cbw.total_bytes = 0 ∧ rdwr10_get_blockcount cbw ≠ 0 then
        MSC_CSW_STATUS_PHASE_ERROR
      else if cbw.total_bytes ≠ 0 ∧
          ((cbw.command.getD 0 0 = SCSI_CMD_READ_10 ∧ is_data_in cbw.dir = false) ∨
           (cbw.command.getD 0 0 = SCSI_CMD_WRITE_10 ∧ is_data_in cbw.dir = true)) then
        MSC_CSW_STATUS_PHASE_ERROR
      else if cbw.total_bytes ≠ 0 ∧ rdwr10_get_blockcount cbw = 0 then
        MSC_CSW_STATUS_FAILED
      else if cbw.total_bytes ≠ 0 ∧ rdwr10_get_blockcount cbw ≠ 0 ∧
          cbw.total_bytes / rdwr10_get_blockcount cbw = 0 then
        MSC_CSW_STATUS_PHASE_ERROR
      else MSC_CSW_STATUS_PASSED := by
  clear _hop
  simp only [rdwr10_validate_cmd]
  by_cases h0 : cbw.total_bytes = 0 <;>
  by_cases hbc : rdwr10_get_blockcount cbw = 0 <;>
  by_cases hr : (cbw.command.getD 0 0 = SCSI_CMD_READ_10 ∧ is_data_in cbw.dir = false) <;>
  by_cases hw : (cbw.command.getD 0 0 = SCSI_CMD_WRITE_10 ∧ is_data_in cbw.dir = true) <;>
  by_cases hq : cbw.total_bytes / rdwr10_get_blockcount cbw = 0 <;>
  simp [h0, hbc, hr, hw, hq] <;> split_ifs <;> tauto

/-- Witness for C3: READ_10, dir IN, total 1024, block count 2 passes. -/
theorem C3_rdwr10_validate_cases_witness :
    (({ signature := MSC_CBW_SIGNATURE, tag := 0, total_bytes := 1024, dir := 128,
        lun := 0, cmd_len := 10,
        command := [0x28, 0, 0, 0, 0, 0, 0, 0, 2, 0, 0, 0, 0, 0, 0, 0] } :
          msc_cbw_t).command.getD 0 0 = SCSI_CMD_READ_10 ∨
     ({ signature := MSC_CBW_SIGNATURE, tag := 0, total_bytes := 1024, dir := 128,
        lun := 0, cmd_len := 10,
        command := [0x28, 0, 0, 0, 0, 0, 0, 0, 2, 0, 0, 0, 0, 0, 0, 0] } :
          msc_cbw_t).command.getD 0 0 = SCSI_CMD_WRITE_10) ∧
    rdwr10_validate_cmd
      { signature := MSC_CBW_SIGNATURE, tag := 0, total_bytes := 1024, dir := 128,
        lun := 0, cmd_len := 10,
        command := [0x28, 0, 0, 0, 0, 0, 0, 0, 2, 0, 0, 0, 0, 0, 0, 0] }
      = MSC_CSW_STATUS_PASSED := by
  refine ⟨by decide, ?_⟩
  have h := C3_rdwr10_validate_cases
    { signature := MSC_CBW_SIGNATURE, tag := 0, total_bytes := 1024, dir := 128,
      lun := 0, cmd_len := 10,
      command := [0x28, 0, 0, 0, 0, 0, 0, 0, 2, 0, 0, 0, 0, 0, 0, 0] }
    (by decide)
  rw [h]
  decide

/-! ## Claim C7: REQUEST_SENSE responds with, then clears, the sense data -/

/-- C7.  Processing a REQUEST_SENSE command writes the 18-byte fixed-format
response carrying the current sense triple into the buffer and then clears
the stored sense triple; hence a second REQUEST_SENSE with no intervening
error responds with sense key 0.  (Stated for the default path: no
overriding `tud_msc_request_sense_cb`, and a buffer of at least 18
bytes.) -/
theorem C7_request_sense_clear_on_read (env : MscEnv) (itf : mscd_interface_t)
    (scsi_cmd : List Nat) (bufsize : Nat)
    (hcmd : scsi_cmd.getD 0 0 = SCSI_CMD_REQUEST_SENSE)
    (hbuf : 18 ≤ bufsize)
    (hcb : env.request_sense = none) :
    (proc_builtin_scsi env itf scsi_cmd bufsize).1 = 18 ∧
    (proc_builtin_scsi env itf scsi_cmd bufsize).2.1
      = scsi_sense_fixed_resp_bytes itf.sense_key itf.add_sense_code
          itf.add_sense_qualifier ∧
    (proc_builtin_scsi env itf scsi_cmd bufsize).2.1.length = 18 ∧
    (proc_builtin_scsi env itf scsi_cmd bufsize).2.2.sense_key = 0 ∧
    (proc_builtin_scsi env itf scsi_cmd bufsize).2.2.add_sense_code = 0 ∧
    (proc_builtin_scsi env itf scsi_cmd bufsize).2.2.add_sense_qualifier = 0 ∧
    (proc_builtin_scsi env (proc_builtin_scsi env itf scsi_cmd bufsize).2.2
        scsi_cmd bufsize).2.1.getD 2 0 = 0 := by
  simp only [SCSI_CMD_REQUEST_SENSE] at hcmd
  simp only [proc_builtin_scsi, hcmd, hcb, SCSI_CMD_REQUEST_SENSE,
    SCSI_CMD_TEST_UNIT_READY, SCSI_CMD_START_STOP_UNIT,
    SCSI_CMD_PREVENT_ALLOW_MEDIUM_REMOVAL, SCSI_CMD_READ_CAPACITY_10,
    SCSI_CMD_READ_FORMAT_CAPACITY, SCSI_CMD_INQUIRY, SCSI_CMD_MODE_SENSE_6]
  simp [hbuf, tud_msc_set_sense, scsi_sense_fixed_resp_bytes]

/-- Witness for C7 at a concrete sense triple (ILLEGAL REQUEST 0x20/0x01). -/
theorem C7_request_sense_clear_on_read_witness :
    (([0x03, 0, 0, 0, 18, 0] : List Nat).getD 0 0 = SCSI_CMD_REQUEST_SENSE) ∧
    (proc_builtin_scsi
      { read10_ret := fun _ => -1, write10_ret := fun _ => -1,
        scsi_ret := fun _ => -1, is_writable := none, test_unit_ready := true,
        start_stop := none, prevent_allow := none, capacity := (0, 0),
        inquiry2_ret := 0, inquiry2_bytes := [], inquiry_v1_bytes := [],
        request_sense := none, get_maxlun := none }
      { cbw := { signature := 0, tag := 0, total_bytes := 0, dir := 0, lun := 0,
                 cmd_len := 0, command := List.replicate 16 0 }
        csw := { signature := 0, tag := 0, data_residue := 0, status := 0 }
        ep_in := 129, ep_out := 1, total_len := 0, xferred_len := 0,
        stage := MscStage.cmd, sense_key := 5, add_sense_code := 0x20,
        add_sense_qualifier := 1, pending_io := false, pending_io_bound := 0 }
      [0x03, 0, 0, 0, 18, 0] 512).2.1.getD 2 0 = 5 ∧
    (proc_builtin_scsi
      { read10_ret := fun _ => -1, write10_ret := fun _ => -1,
        scsi_ret := fun _ => -1, is_writable := none, test_unit_ready := true,
        start_stop := none, prevent_allow := none, capacity := (0, 0),
        inquiry2_ret := 0, inquiry2_bytes := [], inquiry_v1_bytes := [],
        request_sense := none, get_maxlun := none }
      { cbw := { signature := 0, tag := 0, total_bytes := 0, dir := 0, lun := 0,
                 cmd_len := 0, command := List.replicate 16 0 }
        csw := { signature := 0, tag := 0, data_residue := 0, status := 0 }
        ep_in := 129, ep_out := 1, total_len := 0, xferred_len := 0,
        stage := MscStage.cmd, sense_key := 5, add_sense_code := 0x20,
        add_sense_qualifier := 1, pending_io := false, pending_io_bound := 0 }
      [0x03, 0, 0, 0, 18, 0] 512).2.2.sense_key = 0 := by
  refine ⟨by decide, by decide, ?_⟩
  exact (C7_request_sense_clear_on_read _ _ _ _ (by decide) (by decide) rfl).2.2.2.1

/-! ## Claim C9: PMA cursor reset values (corrected) -/

/-- Counterexample for C9 as stated.  With a hardware endpoint count of 8
but `CFG_TUD_ENDPPOINT_MAX = 4` (BTABLE base 0, `CFG_TUD_ENDPOINT0_SIZE`
64), `dcd_edpt_close_all` resets the cursor to `0 + 8 * 4 + 2 * 64 = 160`,
not to BTABLE base plus 8 times the hardware endpoint count plus twice the
endpoint-0 size (`0 + 8 * 8 + 2 * 64 = 192`): the code uses the configured
endpoint maximum, not the hardware endpoint count. -/
theorem C9_pma_cursor_counterexample :
    ¬ ((dcd_edpt_close_all_pma 0 4 64).ep_buf_ptr = 0 + 8 * 8 + 2 * 64) := by
  decide

/-- C9 amended.  `handle_bus_reset` reinitializes the PMA cursor to
`FSDEV_BTABLE_BASE + 8 * FSDEV_EP_COUNT` — witnessed by the first
endpoint-0 buffer being allocated exactly there, immediately after the
BTABLE — while `dcd_edpt_close_all` resets the cursor to
`FSDEV_BTABLE_BASE + 8 * CFG_TUD_ENDPPOINT_MAX + 2 * CFG_TUD_ENDPOINT0_SIZE`,
i.e. it accounts for the BTABLE using the configured endpoint maximum
(`CFG_TUD_ENDPPOINT_MAX`), not the hardware endpoint count. -/
theorem C9_pma_cursor_amended (btable_base fsdev_ep_count endpoint_max ep0_size : Nat) :
    (handle_bus_reset_pma btable_base fsdev_ep_count ep0_size).2.1
      = btable_base + 8 * fsdev_ep_count ∧
    (dcd_edpt_close_all_pma btable_base endpoint_max ep0_size).ep_buf_ptr
      = btable_base + 8 * endpoint_max + 2 * ep0_size := by
  constructor
  · rfl
  · rfl

/-! ## Claim C8: FSDev OUT-completion bookkeeping -/

/-- C8.  For a non-SETUP OUT completion on a non-isochronous endpoint
(CTR_RX set), the handler adds the received count to `queued_len` (and
copies that many bytes to the user buffer or FIFO), reports the transfer
complete if and only if the count is short of `max_packet_size` or
`queued_len` has reached `total_len`, and otherwise re-arms reception with
a BTABLE bufsize of `min (total_len - queued_len) max_packet_size` and
STAT_RX = VALID. -/
theorem C8_ctr_rx_handler (ep0_size : Nat) (reg : ep_reg_state)
    (bt : btable_rx_state) (xfer : xfer_ctl_t)
    (hctr : reg.ctr_rx = true) (hsetup : reg.setup = false)
    (hiso : reg.ep_kind ≠ EpKind.iso)
    (hcap : xfer.queued_len + bt.count1 ≤ xfer.total_len)
    (htl : xfer.total_len < 65536) :
    (dcd_ep_ctr_rx_handler ep0_size reg bt xfer).1.queued_len
      = xfer.queued_len + bt.count1 ∧
    (bt.count1 ≠ 0 →
      (if xfer.has_ff then RxAction.copy_to_fifo bt.addr1 bt.count1
       else RxAction.copy_to_buffer bt.addr1 xfer.queued_len bt.count1)
        ∈ (dcd_ep_ctr_rx_handler ep0_size reg bt xfer).2) ∧
    ((RxAction.xfer_complete reg.ep_addr_field (xfer.queued_len + bt.count1)
        ∈ (dcd_ep_ctr_rx_handler ep0_size reg bt xfer).2) ↔
      (bt.count1 < xfer.max_packet_size ∨
       xfer.queued_len + bt.count1 = xfer.total_len)) ∧
    (¬(bt.count1 < xfer.max_packet_size ∨
        xfer.queued_len + bt.count1 = xfer.total_len) →
      RxAction.set_rx_bufsize 1
          (min (xfer.total_len - (xfer.queued_len + bt.count1))
            xfer.max_packet_size)
        ∈ (dcd_ep_ctr_rx_handler ep0_size reg bt xfer).2 ∧
      RxAction.set_rx_status_valid
        ∈ (dcd_ep_ctr_rx_handler ep0_size reg bt xfer).2) := by
  by_cases hff : xfer.has_ff <;>
  by_cases hc0 : bt.count1 = 0 <;>
  by_cases hcm : bt.count1 < xfer.max_packet_size ∨
      xfer.queued_len + bt.count1 = xfer.total_len <;>
  by_cases hep0 : reg.ep_addr_field = 0 <;>
  simp_all [dcd_ep_ctr_rx_handler,
    Nat.mod_eq_of_lt (show xfer.queued_len + bt.count1 < 65536 by omega),
    usub16_eq_sub hcap htl] <;>
  try omega
  all_goals simp [Nat.not_lt.mpr hcm.1]

/-- Witness for C8: bulk endpoint 1, 64-byte packet into a 128-byte
transfer with nothing queued yet: no completion report, re-arm with 64. -/
theorem C8_ctr_rx_handler_witness :
    (dcd_ep_ctr_rx_handler 64
      { ctr_rx := true, setup := false, ep_kind := EpKind.bulk,
        dtog_rx := false, ep_addr_field := 1 }
      { addr0 := 0, count0 := 0, addr1 := 128, count1 := 64 }
      { has_ff := false, total_len := 128, queued_len := 0,
        max_packet_size := 64 }).1.queued_len = 0 + 64 ∧
    (¬((64 : Nat) < 64 ∨ (0 : Nat) + 64 = 128) →
      RxAction.set_rx_bufsize 1 (min (128 - (0 + 64)) 64)
        ∈ (dcd_ep_ctr_rx_handler 64
          { ctr_rx := true, setup := false, ep_kind := EpKind.bulk,
            dtog_rx := false, ep_addr_field := 1 }
          { addr0 := 0, count0 := 0, addr1 := 128, count1 := 64 }
          { has_ff := false, total_len := 128, queued_len := 0,
            max_packet_size := 64 }).2) := by
  have h := C8_ctr_rx_handler 64
    { ctr_rx := true, setup := false, ep_kind := EpKind.bulk,
      dtog_rx := false, ep_addr_field := 1 }
    { addr0 := 0, count0 := 0, addr1 := 128, count1 := 64 }
    { has_ff := false, total_len := 128, queued_len := 0, max_packet_size := 64 }
    rfl rfl (by decide) (by decide) (by decide)
  exact ⟨h.1, fun hc => (h.2.2.2 hc).1⟩

/-- `proc_builtin_scsi` only ever modifies the sense triple of the
interface state. -/
theorem proc_builtin_scsi_preserves (env : MscEnv) (itf : mscd_interface_t)
    (scsi_cmd : List Nat) (bufsize : Nat) :
    (proc_builtin_scsi env itf scsi_cmd bufsize).2.2.stage = itf.stage ∧
    (proc_builtin_scsi env itf scsi_cmd bufsize).2.2.cbw = itf.cbw ∧
    (proc_builtin_scsi env itf scsi_cmd bufsize).2.2.csw = itf.csw ∧
    (proc_builtin_scsi env itf scsi_cmd bufsize).2.2.ep_in = itf.ep_in ∧
    (proc_builtin_scsi env itf scsi_cmd bufsize).2.2.ep_out = itf.ep_out ∧
    (proc_builtin_scsi env itf scsi_cmd bufsize).2.2.total_len = itf.total_len ∧
    (proc_builtin_scsi env itf scsi_cmd bufsize).2.2.xferred_len = itf.xferred_len ∧
    (proc_builtin_scsi env itf scsi_cmd bufsize).2.2.pending_io = itf.pending_io ∧
    (proc_builtin_scsi env itf scsi_cmd bufsize).2.2.pending_io_bound
      = itf.pending_io_bound := by
  simp only [proc_builtin_scsi]
  repeat' split
  all_goals simp only [default_sense_mnp, set_sense_medium_not_present,
    tud_msc_set_sense]
  all_goals try split_ifs
  all_goals simp

/-! ## Stage-range lemmas for the dispatch paths -/

theorem proc_read_io_data_stage (s : MscSys) (nb : Int) :
    (proc_read_io_data s nb).itf.stage = s.itf.stage ∨
    (proc_read_io_data s nb).itf.stage = MscStage.status := by
  unfold proc_read_io_data
  split_ifs
  · left; rfl
  · right
    exact (fail_scsi_op_itf _ _).1
  · left; rfl
  · left; rfl

theorem proc_read10_cmd_stage (bufsz : Nat) (env : MscEnv) (s : MscSys) :
    (proc_read10_cmd bufsz env s).itf.stage = s.itf.stage ∨
    (proc_read10_cmd bufsz env s).itf.stage = MscStage.status := by
  simp only [proc_read10_cmd]
  split_ifs
  · left; rfl
  · exact proc_read_io_data_stage _ _

theorem proc_write10_cmd_stage (bufsz : Nat) (env : MscEnv) (s : MscSys) :
    (proc_write10_cmd bufsz env s).itf.stage = s.itf.stage ∨
    (proc_write10_cmd bufsz env s).itf.stage = MscStage.status := by
  simp only [proc_write10_cmd]
  split_ifs
  · right
    exact (fail_scsi_op_itf _ _).1
  · left; rfl

theorem proc_write_io_data_stage (bufsz : Nat) (env : MscEnv) (s : MscSys)
    (xb : Nat) (nb : Int) :
    (proc_write_io_data bufsz env s xb nb).itf.stage = s.itf.stage ∨
    (proc_write_io_data bufsz env s xb nb).itf.stage = MscStage.status := by
  simp only [proc_write_io_data]
  split_ifs
  · right
    exact (fail_scsi_op_itf _ _).1
  · left; rfl
  · left; rfl
  · right; rfl
  · exact proc_write10_cmd_stage _ _ _

theorem proc_write10_host_data_stage (bufsz : Nat) (env : MscEnv) (s : MscSys)
    (xb : Nat) :
    (proc_write10_host_data bufsz env s xb).itf.stage = s.itf.stage ∨
    (proc_write10_host_data bufsz env s xb).itf.stage = MscStage.status := by
  simp only [proc_write10_host_data]
  split_ifs
  · left; rfl
  · exact proc_write_io_data_stage _ _ _ _ _

theorem status_wrap_stage (s : MscSys) :
    (status_wrap s).itf.stage = s.itf.stage ∨
    (status_wrap s).itf.stage = MscStage.status ∨
    (status_wrap s).itf.stage = MscStage.status_sent := by
  unfold status_wrap proc_stage_status send_csw
  split_ifs <;> simp [queue_in]

/-- In the CMD stage, with a valid 31-byte CBW on the OUT endpoint, the
core dispatch always leaves stage DATA or STATUS. -/
theorem mscd_core_cmd_stage (bufsz : Nat) (env : MscEnv) (s : MscSys)
    (buf : List Nat) (nb : Nat)
    (hstage : s.itf.stage = MscStage.cmd)
    (hvalid : nb = 31 ∧ le32 buf 0 = MSC_CBW_SIGNATURE) :
    (mscd_xfer_cb_core bufsz env s s.itf.ep_out buf nb).itf.stage = MscStage.data ∨
    (mscd_xfer_cb_core bufsz env s s.itf.ep_out buf nb).itf.stage
      = MscStage.status := by
  simp only [mscd_xfer_cb_core, hstage]
  rw [if_neg (by simp), if_pos hvalid]
  split_ifs <;>
    first
    | left; rfl
    | right; rfl
    | right; exact (fail_scsi_op_itf _ _).1
    | exact proc_read10_cmd_stage _ _ _
    | exact proc_write10_cmd_stage _ _ _
    | left; exact (proc_builtin_scsi_preserves _ _ _ _).1
    | right; exact (proc_builtin_scsi_preserves _ _ _ _).1

/-! ## Claim C2: CBW validation at the CMD stage -/

/-- C2.  For every OUT-endpoint completion in the CMD stage: if the
received length is not 31 or the first four bytes are not the
little-endian signature 0x43425355, the driver stalls both bulk endpoints
and enters NEED_RESET; otherwise the CBW is accepted and the stage leaves
CMD. -/
theorem C2_cbw_validation (bufsz : Nat) (env : MscEnv) (s : MscSys)
    (buf : List Nat) (nb : Nat)
    (hstage : s.itf.stage = MscStage.cmd)
    (hdistinct : s.itf.ep_in ≠ s.itf.ep_out) :
    (¬(nb = 31 ∧ le32 buf 0 = MSC_CBW_SIGNATURE) →
      (mscd_xfer_cb bufsz env s s.itf.ep_out buf nb).itf.stage
          = MscStage.need_reset ∧
      (mscd_xfer_cb bufsz env s s.itf.ep_out buf nb).usb.in_stalled = true ∧
      (mscd_xfer_cb bufsz env s s.itf.ep_out buf nb).usb.out_stalled = true) ∧
    ((nb = 31 ∧ le32 buf 0 = MSC_CBW_SIGNATURE) →
      (mscd_xfer_cb bufsz env s s.itf.ep_out buf nb).itf.stage
        ≠ MscStage.cmd) := by
  constructor
  · intro hbad
    have hcore : mscd_xfer_cb_core bufsz env s s.itf.ep_out buf nb
        = stall_ep (stall_ep
            { s with itf := { s.itf with stage := MscStage.need_reset } }
            s.itf.ep_in) s.itf.ep_out := by
      simp only [mscd_xfer_cb_core, hstage]
      rw [if_neg (by simp)]
      rw [if_neg hbad]
    unfold mscd_xfer_cb
    rw [hcore]
    simp [status_wrap, stall_ep, hdistinct, Ne.symm hdistinct]
  · intro hok
    have hcore := mscd_core_cmd_stage bufsz env s buf nb hstage hok
    unfold mscd_xfer_cb
    have hwrap := status_wrap_stage (mscd_xfer_cb_core bufsz env s s.itf.ep_out buf nb)
    rcases hcore with hc | hc <;> rcases hwrap with hw | hw | hw <;>
      simp [hw, hc]

/-- A trivial environment for concrete witnesses. -/
def trivEnv : MscEnv :=
  { read10_ret := fun _ => -1, write10_ret := fun _ => -1,
    scsi_ret := fun _ => -1, is_writable := none, test_unit_ready := true,
    start_stop := none, prevent_allow := none, capacity := (0, 0),
    inquiry2_ret := 0, inquiry2_bytes := [], inquiry_v1_bytes := [],
    request_sense := none, get_maxlun := none }

/-- Witness for C2: a 31-byte buffer with a wrong signature stalls both
endpoints of the freshly opened interface and enters NEED_RESET. -/
theorem C2_cbw_validation_witness :
    (¬((31 : Nat) = 31 ∧ le32 (List.replicate 31 0) 0 = MSC_CBW_SIGNATURE) →
      (mscd_xfer_cb 512 trivEnv (mscd_open_init 129 1)
          (mscd_open_init 129 1).itf.ep_out (List.replicate 31 0) 31).itf.stage
          = MscStage.need_reset ∧
      (mscd_xfer_cb 512 trivEnv (mscd_open_init 129 1)
          (mscd_open_init 129 1).itf.ep_out (List.replicate 31 0) 31).usb.in_stalled
          = true ∧
      (mscd_xfer_cb 512 trivEnv (mscd_open_init 129 1)
          (mscd_open_init 129 1).itf.ep_out (List.replicate 31 0) 31).usb.out_stalled
          = true) ∧
    (((31 : Nat) = 31 ∧ le32 (List.replicate 31 0) 0 = MSC_CBW_SIGNATURE) →
      (mscd_xfer_cb 512 trivEnv (mscd_open_init 129 1)
          (mscd_open_init 129 1).itf.ep_out (List.replicate 31 0) 31).itf.stage
        ≠ MscStage.cmd) :=
  C2_cbw_validation 512 trivEnv (mscd_open_init 129 1) (List.replicate 31 0) 31
    (by decide) (by decide)

/-! ## Direction facts guaranteed by a passing READ10/WRITE10 validation -/

theorem validate_read10_dir (cbw : msc_cbw_t)
    (hc : cbw.command.getD 0 0 = SCSI_CMD_READ_10)
    (htb : cbw.total_bytes ≠ 0)
    (hv : rdwr10_validate_cmd cbw = MSC_CSW_STATUS_PASSED) :
    is_data_in cbw.dir = true := by
  by_contra h
  have hd : is_data_in cbw.dir = false := by simpa using h
  simp only [List.getD_eq_getElem?_getD] at hc
  simp [rdwr10_validate_cmd, htb, hc, hd, MSC_CSW_STATUS_PASSED,
    MSC_CSW_STATUS_PHASE_ERROR] at hv

theorem validate_write10_dir (cbw : msc_cbw_t)
    (hc : cbw.command.getD 0 0 = SCSI_CMD_WRITE_10)
    (htb : cbw.total_bytes ≠ 0)
    (hv : rdwr10_validate_cmd cbw = MSC_CSW_STATUS_PASSED) :
    is_data_in cbw.dir = false := by
  by_contra h
  have hd : is_data_in cbw.dir = true := by simpa using h
  simp only [List.getD_eq_getElem?_getD] at hc
  simp [rdwr10_validate_cmd, htb, hc, hd, SCSI_CMD_READ_10, SCSI_CMD_WRITE_10,
    MSC_CSW_STATUS_PASSED, MSC_CSW_STATUS_PHASE_ERROR] at hv

/-! ## Claim C6: WRITE_10 against a write-protected LUN -/

/-- C6.  A WRITE_10 CBW on a LUN whose writable callback returns false is
failed at command dispatch: no OUT transfer is armed for the data phase,
the sense triple becomes DATA_PROTECT (0x27/0x00), CSW.status is FAILED
with residue `cbw.total_bytes`, the bulk OUT endpoint is stalled, and the
command proceeds straight to the status phase (STATUS, or STATUS_SENT once
the CSW has been armed). -/
theorem C6_write10_write_protected (bufsz : Nat) (env : MscEnv) (s : MscSys)
    (buf : List Nat)
    (hstage : s.itf.stage = MscStage.cmd)
    (hdistinct : s.itf.ep_in ≠ s.itf.ep_out)
    (hsig : le32 buf 0 = MSC_CBW_SIGNATURE)
    (hcmd0 : buf.getD 15 0 = SCSI_CMD_WRITE_10)
    (hvalidate : rdwr10_validate_cmd (parse_cbw buf) = MSC_CSW_STATUS_PASSED)
    (htb : (parse_cbw buf).total_bytes ≠ 0)
    (h32 : (parse_cbw buf).total_bytes < 4294967296)
    (hwr : env.is_writable = some false) :
    (mscd_xfer_cb bufsz env s s.itf.ep_out buf 31).usb.queued_out = none ∧
    (mscd_xfer_cb bufsz env s s.itf.ep_out buf 31).usb.out_stalled = true ∧
    (mscd_xfer_cb bufsz env s s.itf.ep_out buf 31).itf.sense_key
      = SCSI_SENSE_DATA_PROTECT ∧
    (mscd_xfer_cb bufsz env s s.itf.ep_out buf 31).itf.add_sense_code = 0x27 ∧
    (mscd_xfer_cb bufsz env s s.itf.ep_out buf 31).itf.add_sense_qualifier = 0 ∧
    (mscd_xfer_cb bufsz env s s.itf.ep_out buf 31).itf.csw.status
      = MSC_CSW_STATUS_FAILED ∧
    (mscd_xfer_cb bufsz env s s.itf.ep_out buf 31).itf.csw.data_residue
      = (parse_cbw buf).total_bytes ∧
    ((mscd_xfer_cb bufsz env s s.itf.ep_out buf 31).itf.stage = MscStage.status ∨
     (mscd_xfer_cb bufsz env s s.itf.ep_out buf 31).itf.stage
       = MscStage.status_sent) := by
  have hc : (parse_cbw buf).command.getD 0 0 = SCSI_CMD_WRITE_10 := by
    simpa [parse_cbw] using hcmd0
  have hdir : is_data_in (parse_cbw buf).dir = false :=
    validate_write10_dir _ hc htb hvalidate
  have hres : usub32 (parse_cbw buf).total_bytes 0 = (parse_cbw buf).total_bytes := by
    rw [usub32_eq_sub (Nat.zero_le _) h32, Nat.sub_zero]
  have hc2 := hc
  simp only [List.getD_eq_getElem?_getD] at hc2
  by_cases hst : s.usb.in_stalled <;>
    simp [mscd_xfer_cb, mscd_xfer_cb_core, hstage, hsig, hc, hc2, hvalidate,
      htb, hwr, hdir, hres, proc_write10_cmd, fail_scsi_op, tud_msc_set_sense,
      stall_ep, status_wrap, proc_stage_status, send_csw, queue_in, hdistinct,
      Ne.symm hdistinct, hst, SCSI_CMD_READ_10, SCSI_CMD_WRITE_10,
      SCSI_SENSE_DATA_PROTECT, MSC_CSW_STATUS_PASSED, MSC_CSW_STATUS_FAILED]

def c6_buf : List Nat :=
  [0x55, 0x53, 0x42, 0x43, 0x78, 0x56, 0x34, 0x12, 0x00, 0x02, 0x00, 0x00,
   0x00, 0x00, 0x0A, 0x2A, 0, 0, 0, 0, 0, 0, 0, 1, 0, 0, 0, 0, 0, 0, 0]

def c6_env : MscEnv := { trivEnv with is_writable := some false }

/-- Witness for C6: a 512-byte WRITE_10 CBW against a write-protected LUN
on the freshly opened interface. -/
theorem C6_write10_write_protected_witness :
    (mscd_xfer_cb 512 c6_env (mscd_open_init 129 1)
        (mscd_open_init 129 1).itf.ep_out c6_buf 31).usb.queued_out = none ∧
    (mscd_xfer_cb 512 c6_env (mscd_open_init 129 1)
        (mscd_open_init 129 1).itf.ep_out c6_buf 31).usb.out_stalled = true ∧
    (mscd_xfer_cb 512 c6_env (mscd_open_init 129 1)
        (mscd_open_init 129 1).itf.ep_out c6_buf 31).itf.sense_key
      = SCSI_SENSE_DATA_PROTECT ∧
    (mscd_xfer_cb 512 c6_env (mscd_open_init 129 1)
        (mscd_open_init 129 1).itf.ep_out c6_buf 31).itf.csw.status
      = MSC_CSW_STATUS_FAILED ∧
    (mscd_xfer_cb 512 c6_env (mscd_open_init 129 1)
        (mscd_open_init 129 1).itf.ep_out c6_buf 31).itf.csw.data_residue
      = (parse_cbw c6_buf).total_bytes := by
  have h := C6_write10_write_protected 512 c6_env (mscd_open_init 129 1) c6_buf
    (by decide) (by decide) (by decide) (by decide) (by decide) (by decide)
    (by decide) rfl
  exact ⟨h.1, h.2.1, h.2.2.1, h.2.2.2.2.2.1, h.2.2.2.2.2.2.1⟩

/-! ## Claim C10: `tud_msc_async_io_done` is a guarded error-normalizing
completion -/

/-- C10.  If no asynchronous I/O is pending, `tud_msc_async_io_done`
returns false and the event changes no state.  If one is pending, a zero
byte count is converted to the ERROR sentinel before the deferred
completion runs, so an asynchronous completion with 0 bytes fails the
SCSI operation (sense NOT READY / MEDIUM NOT PRESENT 0x3A/0x00, CSW
status FAILED, straight to the status phase) instead of being treated as
BUSY and retried. -/
theorem C10_async_io_done_guard (bufsz : Nat) (env : MscEnv) (s : MscSys)
    (b : Int) :
    (s.itf.pending_io = false →
      tud_msc_async_io_done s.itf b = (false, none) ∧
      mscd_step bufsz env s (MscEvent.asyncDone b) = s) ∧
    (s.itf.pending_io = true →
      tud_msc_async_io_done s.itf 0 = (true, some TUD_MSC_RET_ERROR) ∧
      ((s.itf.cbw.command.getD 0 0 = SCSI_CMD_READ_10 ∨
        s.itf.cbw.command.getD 0 0 = SCSI_CMD_WRITE_10) →
        (mscd_step bufsz env s (MscEvent.asyncDone 0)).itf.pending_io = false ∧
        (mscd_step bufsz env s (MscEvent.asyncDone 0)).itf.sense_key
          = SCSI_SENSE_NOT_READY ∧
        (mscd_step bufsz env s (MscEvent.asyncDone 0)).itf.add_sense_code
          = 0x3A ∧
        (mscd_step bufsz env s (MscEvent.asyncDone 0)).itf.add_sense_qualifier
          = 0 ∧
        (mscd_step bufsz env s (MscEvent.asyncDone 0)).itf.csw.status
          = MSC_CSW_STATUS_FAILED ∧
        ((mscd_step bufsz env s (MscEvent.asyncDone 0)).itf.stage
            = MscStage.status ∨
         (mscd_step bufsz env s (MscEvent.asyncDone 0)).itf.stage
            = MscStage.status_sent))) := by
  constructor
  · intro hp
    constructor
    · simp [tud_msc_async_io_done, hp]
    · simp [mscd_step, tud_msc_async_io_done, hp]
  · intro hp
    constructor
    · simp [tud_msc_async_io_done, hp]
    · intro hcmd
      have hstep : mscd_step bufsz env s (MscEvent.asyncDone 0)
          = proc_async_io_done bufsz env s (-1) := by
        simp [mscd_step, tud_msc_async_io_done, hp, TUD_MSC_RET_ERROR]
      rw [hstep]
      rcases hcmd with hc | hc <;>
      · have hc2 := hc
        simp only [List.getD_eq_getElem?_getD] at hc2
        simp only [proc_async_io_done, hp, hc, hc2, SCSI_CMD_READ_10,
          SCSI_CMD_WRITE_10, proc_read_io_data, proc_write_io_data,
          TUD_MSC_RET_ERROR, TUD_MSC_RET_BUSY]
        norm_num
        simp only [fail_scsi_op, set_sense_medium_not_present,
          tud_msc_set_sense, status_wrap, proc_stage_status, send_csw,
          queue_in, SCSI_SENSE_NOT_READY, SCSI_SENSE_ILLEGAL_REQUEST,
          MSC_CSW_STATUS_FAILED]
        norm_num
        split_ifs <;> simp

def c10_state : MscSys :=
  { itf := { cbw := { signature := MSC_CBW_SIGNATURE, tag := 1, total_bytes := 512,
                      dir := 128, lun := 0, cmd_len := 10,
                      command := [0x28, 0, 0, 0, 0, 0, 0, 0, 1, 0, 0, 0, 0, 0, 0, 0] }
             csw := { signature := MSC_CSW_SIGNATURE, tag := 1, data_residue := 0,
                      status := 0 }
             ep_in := 129, ep_out := 1, total_len := 512, xferred_len := 0,
             stage := MscStage.data, sense_key := 0, add_sense_code := 0,
             add_sense_qualifier := 0, pending_io := true, pending_io_bound := 512 }
    usb := { in_stalled := false, out_stalled := false, queued_in := none,
             queued_out := none } }

/-- Witness for C10: a pending READ_10 completed asynchronously with 0
bytes fails the command with MEDIUM NOT PRESENT. -/
theorem C10_async_io_done_guard_witness :
    c10_state.itf.pending_io = true ∧
    tud_msc_async_io_done c10_state.itf 0 = (true, some TUD_MSC_RET_ERROR) ∧
    (mscd_step 512 trivEnv c10_state (MscEvent.asyncDone 0)).itf.csw.status
      = MSC_CSW_STATUS_FAILED ∧
    (mscd_step 512 trivEnv c10_state (MscEvent.asyncDone 0)).itf.sense_key
      = SCSI_SENSE_NOT_READY := by
  have h := C10_async_io_done_guard 512 trivEnv c10_state 0
  exact ⟨rfl, (h.2 rfl).1,
    ((h.2 rfl).2 (Or.inl (by decide))).2.2.2.2.1,
    ((h.2 rfl).2 (Or.inl (by decide))).2.1⟩

/-! ## Preservation of `mscd_inv` by the SCSI processing paths -/

theorem mscd_inv_fail_scsi_op (s : MscSys) (st : Nat)
    (h2 : s.itf.xferred_len ≤ s.itf.total_len)
    (h3 : s.itf.total_len ≤ s.itf.cbw.total_bytes)
    (h4 : s.itf.cbw.total_bytes < 4294967296)
    (h5 : s.itf.ep_in ≠ s.itf.ep_out)
    (h6 : s.itf.pending_io = false) :
    mscd_inv (fail_scsi_op s st) := by
  simp only [fail_scsi_op, tud_msc_set_sense]
  split_ifs <;>
    first
      | exact mscd_inv_stall_ep _ _ (mscd_inv_of_status _ rfl h2 h3 h4 h5 h6)
      | exact mscd_inv_of_status _ rfl h2 h3 h4 h5 h6

theorem mscd_inv_unqueue_in (s : MscSys) (h : mscd_inv s) :
    mscd_inv { s with usb := { s.usb with queued_in := none } } := by
  obtain ⟨h1, h2, h3, h4, h5, h6, h7, h8⟩ := h
  refine ⟨h1, h2, h3, h4, fun _ => rfl, ?_, h7, ?_⟩
  · intro hd
    obtain ⟨d1, d2, d3, d4, d5, d6⟩ := h6 hd
    exact ⟨d1, d2, d3, d4, fun _ => rfl,
      by simpa using (by omega :
        s.itf.xferred_len + s.usb.queued_out.getD 0 ≤ s.itf.total_len)⟩
  · intro hp
    obtain ⟨p1, p2, p3, p4⟩ := h8 hp
    exact ⟨p1, p2, rfl, p4⟩

theorem mscd_inv_unqueue_out (s : MscSys) (h : mscd_inv s) :
    mscd_inv { s with usb := { s.usb with queued_out := none } } := by
  obtain ⟨h1, h2, h3, h4, h5, h6, h7, h8⟩ := h
  refine ⟨h1, h2, h3, h4, h5, ?_, h7, ?_⟩
  · intro hd
    obtain ⟨d1, d2, d3, d4, d5, d6⟩ := h6 hd
    exact ⟨d1, d2, d3, fun _ => rfl, d5,
      by simpa using (by omega :
        s.itf.xferred_len + s.usb.queued_in.getD 0 ≤ s.itf.total_len)⟩
  · intro hp
    obtain ⟨p1, p2, p3, p4⟩ := h8 hp
    exact ⟨p1, p2, p3, rfl⟩

theorem mscd_inv_proc_read_io_data (s : MscSys) (nb : Int)
    (h : mscd_inv s)
    (hst : s.itf.stage = MscStage.data)
    (hp : s.itf.pending_io = false)
    (hdir : is_data_in s.itf.cbw.dir = true)
    (hnb : 0 < nb → s.itf.xferred_len + nb.toNat ≤ s.itf.total_len) :
    mscd_inv (proc_read_io_data s nb) := by
  obtain ⟨b2, b3, b4, b5⟩ := mscd_inv_basics s h
  obtain ⟨d1, d2, d3, d4, d5, d6⟩ := mscd_inv_data_facts s h hst
  simp only [proc_read_io_data]
  split_ifs with hpos herr hbusy
  · refine mscd_inv_of_data _ hst b2 b3 b4 b5 d1 d2 d3 (fun _ => d4 hdir) ?_ ?_ ?_
    · intro hw
      simp only [queue_in_itf] at hw
      exact absurd hdir (by simp [d3 hw])
    · have hm : (nb.toNat % 65536) ≤ nb.toNat := Nat.mod_le _ _
      have hx := hnb hpos
      have hqo := d4 hdir
      simpa [hqo] using by omega
    · intro hp2
      exact absurd hp2 (by simp [hp])
  · exact mscd_inv_fail_scsi_op _ _ b2 b3 b4 b5 hp
  · refine mscd_inv_of_data _ hst b2 b3 b4 b5 d1 d2 d3 (fun _ => d4 hdir) ?_ ?_ ?_
    · intro hw
      simp only [queue_in_itf] at hw
      exact absurd hdir (by simp [d3 hw])
    · simpa [d4 hdir] using b2
    · intro hp2
      exact absurd hp2 (by simp [hp])
  · exact h

theorem mscd_inv_proc_read10_cmd (bufsz : Nat) (env : MscEnv)
    (henv : ∀ n, 0 < env.read10_ret n → env.read10_ret n ≤ (n : Int))
    (s : MscSys)
    (h : mscd_inv s)
    (hst : s.itf.stage = MscStage.data)
    (hp : s.itf.pending_io = false)
    (hdir : is_data_in s.itf.cbw.dir = true)
    (htl : s.itf.total_len = s.itf.cbw.total_bytes)
    (hqi : s.usb.queued_in = none)
    (hqo : s.usb.queued_out = none) :
    mscd_inv (proc_read10_cmd bufsz env s) := by
  obtain ⟨b2, b3, b4, b5⟩ := mscd_inv_basics s h
  obtain ⟨d1, d2, d3, d4, d5, d6⟩ := mscd_inv_data_facts s h hst
  have hsub : usub32 s.itf.cbw.total_bytes s.itf.xferred_len
      = s.itf.cbw.total_bytes - s.itf.xferred_len :=
    usub32_eq_sub (le_trans b2 b3) b4
  have hreq : s.itf.xferred_len +
      min bufsz (usub32 s.itf.cbw.total_bytes s.itf.xferred_len)
      ≤ s.itf.total_len := by
    rw [hsub, htl]
    have hx : s.itf.xferred_len ≤ s.itf.cbw.total_bytes := le_trans b2 b3
    omega
  simp only [proc_read10_cmd]
  split_ifs with hasync
  · refine mscd_inv_of_data _ hst b2 b3 b4 b5 d1 d2 d3 (fun _ => hqo)
      (fun _ => hqi) ?_ ?_
    · simpa [hqi, hqo] using b2
    · intro _
      exact ⟨hreq, hqi, hqo⟩
  · refine mscd_inv_proc_read_io_data
      { s with itf :=
          { s.itf with
            pending_io := false
            pending_io_bound :=
              min bufsz (usub32 s.itf.cbw.total_bytes s.itf.xferred_len) } }
      (env.read10_ret (min bufsz (usub32 s.itf.cbw.total_bytes s.itf.xferred_len)))
      ?_ hst rfl hdir ?_
    · exact mscd_inv_of_data _ hst b2 b3 b4 b5 d1 d2 d3 (fun _ => hqo)
        (fun _ => hqi) (by simpa [hqi, hqo] using b2)
        (fun hp2 => absurd hp2 (by simp))
    · intro hpos
      have hle := henv _ hpos
      have hto : (env.read10_ret (min bufsz
          (usub32 s.itf.cbw.total_bytes s.itf.xferred_len))).toNat
          ≤ min bufsz (usub32 s.itf.cbw.total_bytes s.itf.xferred_len) :=
        Int.toNat_le.mpr hle
      show s.itf.xferred_len + _ ≤ s.itf.total_len
      omega

theorem mscd_inv_to_status (s : MscSys) (h : mscd_inv s)
    (hp : s.itf.pending_io = false) :
    mscd_inv { s with itf := { s.itf with stage := MscStage.status } } := by
  obtain ⟨b2, b3, b4, b5⟩ := mscd_inv_basics s h
  exact mscd_inv_of_status _ rfl b2 b3 b4 b5 hp

theorem mscd_inv_set_xferred (s : MscSys) (x : Nat)
    (h : mscd_inv s)
    (hst : s.itf.stage = MscStage.data)
    (hp : s.itf.pending_io = false)
    (hqi : s.usb.queued_in = none)
    (hqo : s.usb.queued_out = none)
    (hx : x ≤ s.itf.total_len) :
    mscd_inv { s with itf := { s.itf with xferred_len := x } } := by
  obtain ⟨b2, b3, b4, b5⟩ := mscd_inv_basics s h
  obtain ⟨d1, d2, d3, d4, d5, d6⟩ := mscd_inv_data_facts s h hst
  refine mscd_inv_of_data { s with itf := { s.itf with xferred_len := x } }
    hst hx b3 b4 b5 d1 d2 d3 (fun _ => hqo) (fun _ => hqi) ?_ ?_
  · simpa [hqi, hqo] using hx
  · intro hp2
    exact absurd hp2 (by simp [hp])

theorem mscd_inv_proc_write10_cmd (bufsz : Nat) (env : MscEnv) (s : MscSys)
    (h : mscd_inv s)
    (hst : s.itf.stage = MscStage.data)
    (hp : s.itf.pending_io = false)
    (hdir : is_data_in s.itf.cbw.dir = false)
    (htl : s.itf.total_len = s.itf.cbw.total_bytes)
    (hqi : s.usb.queued_in = none) :
    mscd_inv (proc_write10_cmd bufsz env s) := by
  obtain ⟨b2, b3, b4, b5⟩ := mscd_inv_basics s h
  obtain ⟨d1, d2, d3, d4, d5, d6⟩ := mscd_inv_data_facts s h hst
  have hsub : usub32 s.itf.cbw.total_bytes s.itf.xferred_len
      = s.itf.cbw.total_bytes - s.itf.xferred_len :=
    usub32_eq_sub (le_trans b2 b3) b4
  simp only [proc_write10_cmd]
  split_ifs with hwr
  · exact mscd_inv_fail_scsi_op _ _ b2 b3 b4 b5 hp
  · refine mscd_inv_of_data _ hst b2 b3 b4 b5 d1 d2 d3 ?_ (fun _ => hqi) ?_ ?_
    · intro hd
      exact absurd hd (by simp [hdir])
    · have hm : min bufsz (usub32 s.itf.cbw.total_bytes s.itf.xferred_len) % 65536
          ≤ usub32 s.itf.cbw.total_bytes s.itf.xferred_len :=
        le_trans (Nat.mod_le _ _) (min_le_right _ _)
      simpa [hqi] using by omega
    · intro hp2
      exact absurd hp2 (by simp [hp])

theorem mscd_inv_proc_write_io_data (bufsz : Nat) (env : MscEnv) (s : MscSys)
    (xb : Nat) (nb : Int)
    (h : mscd_inv s)
    (hst : s.itf.stage = MscStage.data)
    (hp : s.itf.pending_io = false)
    (hdir : is_data_in s.itf.cbw.dir = false)
    (htl : s.itf.total_len = s.itf.cbw.total_bytes)
    (hqi : s.usb.queued_in = none)
    (hqo : s.usb.queued_out = none)
    (hxb : 0 ≤ nb → s.itf.xferred_len + xb ≤ s.itf.total_len) :
    mscd_inv (proc_write_io_data bufsz env s xb nb) := by
  obtain ⟨b2, b3, b4, b5⟩ := mscd_inv_basics s h
  obtain ⟨d1, d2, d3, d4, d5, d6⟩ := mscd_inv_data_facts s h hst
  simp only [proc_write_io_data]
  split_ifs with hneg herr hlt hdone
  · exact mscd_inv_fail_scsi_op _ _ b2 b3 b4 b5 hp
  · exact h
  · refine mscd_inv_of_data _ hst b2 b3 b4 b5 d1 d2 d3 ?_ (fun _ => hqi) ?_ ?_
    · intro hd
      exact absurd hd (by simp [hdir])
    · have hge := Int.not_lt.mp hneg
      have hx2 := hxb hge
      simpa [hqi] using by omega
    · intro hp2
      exact absurd hp2 (by simp [hp])
  · have hge := Int.not_lt.mp hneg
    have hx2 := hxb hge
    refine mscd_inv_of_status
      { s with itf :=
          { s.itf with
            xferred_len := (s.itf.xferred_len + xb) % 4294967296
            stage := MscStage.status } }
      rfl ?_ b3 b4 b5 hp
    show (s.itf.xferred_len + xb) % 4294967296 ≤ s.itf.total_len
    omega
  · have hge := Int.not_lt.mp hneg
    have hx2 := hxb hge
    have hxm : (s.itf.xferred_len + xb) % 4294967296 ≤ s.itf.total_len := by
      omega
    refine mscd_inv_proc_write10_cmd bufsz env
      { s with itf :=
          { s.itf with
            xferred_len := (s.itf.xferred_len + xb) % 4294967296 } }
      (mscd_inv_set_xferred s _ h hst hp hqi hqo hxm) hst hp hdir htl hqi

theorem mscd_inv_proc_write10_host_data (bufsz : Nat) (env : MscEnv)
    (s : MscSys) (xb : Nat)
    (h : mscd_inv s)
    (hst : s.itf.stage = MscStage.data)
    (hp : s.itf.pending_io = false)
    (hdir : is_data_in s.itf.cbw.dir = false)
    (htl : s.itf.total_len = s.itf.cbw.total_bytes)
    (hqi : s.usb.queued_in = none)
    (hqo : s.usb.queued_out = none)
    (hxb : s.itf.xferred_len + xb ≤ s.itf.total_len) :
    mscd_inv (proc_write10_host_data bufsz env s xb) := by
  obtain ⟨b2, b3, b4, b5⟩ := mscd_inv_basics s h
  obtain ⟨d1, d2, d3, d4, d5, d6⟩ := mscd_inv_data_facts s h hst
  simp only [proc_write10_host_data]
  split_ifs with hasync
  · refine mscd_inv_of_data
      { s with itf :=
          { s.itf with
            pending_io := true
            pending_io_bound := xb } }
      hst b2 b3 b4 b5 d1 d2 d3 (fun _ => hqo) (fun _ => hqi) ?_ ?_
    · simpa [hqi, hqo] using b2
    · intro _
      exact ⟨hxb, hqi, hqo⟩
  · refine mscd_inv_proc_write_io_data bufsz env
      { s with itf :=
          { s.itf with
            pending_io := false
            pending_io_bound := xb } }
      xb (env.write10_ret xb) ?_ hst rfl hdir htl hqi hqo (fun _ => hxb)
    refine mscd_inv_of_data
      { s with itf :=
          { s.itf with
            pending_io := false
            pending_io_bound := xb } }
      hst b2 b3 b4 b5 d1 d2 d3 (fun _ => hqo) (fun _ => hqi) ?_ ?_
    · simpa [hqi, hqo] using b2
    · intro hp2
      exact absurd hp2 (by simp)

theorem mscd_inv_clear_pending (s : MscSys) (h : mscd_inv s) :
    mscd_inv { s with itf := { s.itf with pending_io := false } } := by
  obtain ⟨h1, h2, h3, h4, h5, h6, h7, h8⟩ := h
  exact ⟨h1, h2, h3, h4, h5, h6, h7, fun hp2 => absurd hp2 (by simp)⟩

theorem mscd_inv_proc_async_io_done (bufsz : Nat) (env : MscEnv) (s : MscSys)
    (nb : Int)
    (h : mscd_inv s)
    (hb : s.itf.pending_io = true → nb ≤ (s.itf.pending_io_bound : Int)) :
    mscd_inv (proc_async_io_done bufsz env s nb) := by
  obtain ⟨b2, b3, b4, b5⟩ := mscd_inv_basics s h
  simp only [proc_async_io_done]
  split_ifs with hp0 hread hwrite
  · exact h
  all_goals have hp : s.itf.pending_io = true := by simpa using hp0
  all_goals obtain ⟨p1, p2, p3, p4⟩ := mscd_inv_pending_facts s h hp
  all_goals obtain ⟨d1, d2, d3, d4, d5, d6⟩ := mscd_inv_data_facts s h p1
  all_goals have hnbb := hb hp
  all_goals have inv1 := mscd_inv_clear_pending s h
  · refine mscd_inv_status_wrap _
      (mscd_inv_proc_read_io_data _ nb inv1 p1 rfl (d2 hread) ?_)
    intro hpos
    have hto : nb.toNat ≤ s.itf.pending_io_bound := Int.toNat_le.mpr hnbb
    show s.itf.xferred_len + nb.toNat ≤ s.itf.total_len
    omega
  · refine mscd_inv_status_wrap _
      (mscd_inv_proc_write_io_data bufsz env _ ((nb.emod 4294967296).toNat) nb
        inv1 p1 rfl (d3 hwrite) (d1 (Or.inr hwrite)) p3 p4 ?_)
    intro hge
    have hblt : (s.itf.pending_io_bound : Int) < 4294967296 := by
      exact_mod_cast (by omega : s.itf.pending_io_bound < 4294967296)
    have hem : nb % 4294967296 = nb :=
      Int.emod_emod_of_dvd nb dvd_rfl ▸ Int.emod_eq_of_lt hge
        (lt_of_le_of_lt hnbb hblt)
    have hto : nb.toNat ≤ s.itf.pending_io_bound := Int.toNat_le.mpr hnbb
    show s.itf.xferred_len + (nb.emod 4294967296).toNat ≤ s.itf.total_len
    rw [show nb.emod 4294967296 = nb % 4294967296 from rfl, hem]
    omega
  · exact mscd_inv_status_wrap _ inv1

theorem mscd_inv_prepare_cbw (s : MscSys)
    (h2 : s.itf.xferred_len ≤ s.itf.total_len)
    (h3 : s.itf.total_len ≤ s.itf.cbw.total_bytes)
    (h4 : s.itf.cbw.total_bytes < 4294967296)
    (h5 : s.itf.ep_in ≠ s.itf.ep_out)
    (h6 : s.itf.pending_io = false)
    (h7 : s.usb.queued_in = none) :
    mscd_inv (prepare_cbw s) := by
  unfold prepare_cbw queue_out
  refine mscd_inv_of_cmd _ rfl h2 h3 h4 h5 h6 ?_
  simpa using h7

theorem mscd_inv_proc_bot_reset (s : MscSys) (h : mscd_inv s)
    (hp : s.itf.pending_io = false) :
    mscd_inv (proc_bot_reset s) := by
  obtain ⟨b2, b3, b4, b5⟩ := mscd_inv_basics s h
  unfold proc_bot_reset
  exact mscd_inv_of_cmd _ rfl (Nat.le_refl 0) (Nat.zero_le _) b4 b5 hp rfl

theorem mscd_inv_mscd_control_xfer_cb (env : MscEnv) (s : MscSys)
    (cstage : Nat) (request : tusb_control_request_t)
    (h : mscd_inv s) (hp : s.itf.pending_io = false) :
    mscd_inv (mscd_control_xfer_cb env s cstage request).1 := by
  obtain ⟨b2, b3, b4, b5⟩ := mscd_inv_basics s h
  simp only [mscd_control_xfer_cb]
  split_ifs with c0 c1 c2 c3 c4 c5 c6 c7 c8 c9 c10 c11 c12 <;>
    first
      | exact h
      | exact mscd_inv_stall_ep _ _ h
      | exact mscd_inv_send_csw s b2 b3 b4 b5 hp
      | exact mscd_inv_prepare_cbw s b2 b3 b4 b5 hp
          (mscd_inv_cmd_queued_in s h c6.1)
      | exact mscd_inv_proc_bot_reset s h hp

theorem mscd_inv_control_step (env : MscEnv) (s : MscSys)
    (request : tusb_control_request_t) (h : mscd_inv s)
    (hp : s.itf.pending_io = false) :
    mscd_inv (control_step env s request) := by
  simp only [control_step]
  refine mscd_inv_mscd_control_xfer_cb env _ _ request ?_ ?_
  · split_ifs with hcf
    · exact (mscd_inv_clear_stall_ep s _).mpr h
    · exact h
  · split_ifs with hcf
    · simpa using hp
    · exact hp

theorem mscd_inv_fail_builtin (env : MscEnv) (itf : mscd_interface_t)
    (cmdl : List Nat) (bufsize : Nat) (u : usbd_state) (st : Nat)
    (h2 : itf.xferred_len ≤ itf.total_len)
    (h3 : itf.total_len ≤ itf.cbw.total_bytes)
    (h4 : itf.cbw.total_bytes < 4294967296)
    (h5 : itf.ep_in ≠ itf.ep_out)
    (h6 : itf.pending_io = false) :
    mscd_inv (fail_scsi_op
      { itf := (proc_builtin_scsi env itf cmdl bufsize).2.2, usb := u } st) := by
  have pv := proc_builtin_scsi_preserves env itf cmdl bufsize
  refine mscd_inv_fail_scsi_op _ _ ?_ ?_ ?_ ?_ ?_
  · show (proc_builtin_scsi env itf cmdl bufsize).2.2.xferred_len
      ≤ (proc_builtin_scsi env itf cmdl bufsize).2.2.total_len
    rw [pv.2.2.2.2.2.2.1, pv.2.2.2.2.2.1]
    exact h2
  · show (proc_builtin_scsi env itf cmdl bufsize).2.2.total_len
      ≤ (proc_builtin_scsi env itf cmdl bufsize).2.2.cbw.total_bytes
    rw [pv.2.2.2.2.2.1, pv.2.1]
    exact h3
  · show (proc_builtin_scsi env itf cmdl bufsize).2.2.cbw.total_bytes < 4294967296
    rw [pv.2.1]
    exact h4
  · show (proc_builtin_scsi env itf cmdl bufsize).2.2.ep_in
      ≠ (proc_builtin_scsi env itf cmdl bufsize).2.2.ep_out
    rw [pv.2.2.2.1, pv.2.2.2.2.1]
    exact h5
  · show (proc_builtin_scsi env itf cmdl bufsize).2.2.pending_io = false
    rw [pv.2.2.2.2.2.2.2.1]
    exact h6

theorem mscd_inv_status_builtin (env : MscEnv) (itf : mscd_interface_t)
    (cmdl : List Nat) (bufsize : Nat) (u : usbd_state)
    (h2 : itf.xferred_len ≤ itf.total_len)
    (h3 : itf.total_len ≤ itf.cbw.total_bytes)
    (h4 : itf.cbw.total_bytes < 4294967296)
    (h5 : itf.ep_in ≠ itf.ep_out)
    (h6 : itf.pending_io = false) :
    mscd_inv { itf := { (proc_builtin_scsi env itf cmdl bufsize).2.2 with
                        stage := MscStage.status }, usb := u } := by
  have pv := proc_builtin_scsi_preserves env itf cmdl bufsize
  refine mscd_inv_of_status _ ?_ ?_ ?_ ?_ ?_ ?_
  · rfl
  · show (proc_builtin_scsi env itf cmdl bufsize).2.2.xferred_len
      ≤ (proc_builtin_scsi env itf cmdl bufsize).2.2.total_len
    rw [pv.2.2.2.2.2.2.1, pv.2.2.2.2.2.1]
    exact h2
  · show (proc_builtin_scsi env itf cmdl bufsize).2.2.total_len
      ≤ (proc_builtin_scsi env itf cmdl bufsize).2.2.cbw.total_bytes
    rw [pv.2.2.2.2.2.1, pv.2.1]
    exact h3
  · show (proc_builtin_scsi env itf cmdl bufsize).2.2.cbw.total_bytes < 4294967296
    rw [pv.2.1]
    exact h4
  · show (proc_builtin_scsi env itf cmdl bufsize).2.2.ep_in
      ≠ (proc_builtin_scsi env itf cmdl bufsize).2.2.ep_out
    rw [pv.2.2.2.1, pv.2.2.2.2.1]
    exact h5
  · show (proc_builtin_scsi env itf cmdl bufsize).2.2.pending_io = false
    rw [pv.2.2.2.2.2.2.2.1]
    exact h6

theorem mscd_inv_queue_in_builtin (env : MscEnv) (itf : mscd_interface_t)
    (cmdl : List Nat) (bufsize : Nat) (u : usbd_state) (r : Int)
    (hst : itf.stage = MscStage.data)
    (hxf : itf.xferred_len = 0)
    (h4 : itf.cbw.total_bytes < 4294967296)
    (h5 : itf.ep_in ≠ itf.ep_out)
    (h6 : itf.pending_io = false)
    (hnrw : ¬(itf.cbw.command.getD 0 0 = SCSI_CMD_READ_10 ∨
              itf.cbw.command.getD 0 0 = SCSI_CMD_WRITE_10))
    (hqo : u.queued_out = none) :
    mscd_inv (queue_in
      { itf := { (proc_builtin_scsi env itf cmdl bufsize).2.2 with
                 total_len := min r.toNat itf.cbw.total_bytes }
        usb := u }
      (min r.toNat itf.cbw.total_bytes % 65536)) := by
  have pv := proc_builtin_scsi_preserves env itf cmdl bufsize
  refine mscd_inv_of_data _ ?_ ?_ ?_ ?_ ?_ ?_ ?_ ?_ ?_ ?_ ?_ ?_
  · show (proc_builtin_scsi env itf cmdl bufsize).2.2.stage = MscStage.data
    rw [pv.1]
    exact hst
  · show (proc_builtin_scsi env itf cmdl bufsize).2.2.xferred_len
      ≤ min r.toNat itf.cbw.total_bytes
    rw [pv.2.2.2.2.2.2.1, hxf]
    exact Nat.zero_le _
  · show min r.toNat itf.cbw.total_bytes
      ≤ (proc_builtin_scsi env itf cmdl bufsize).2.2.cbw.total_bytes
    rw [pv.2.1]
    exact min_le_right _ _
  · show (proc_builtin_scsi env itf cmdl bufsize).2.2.cbw.total_bytes < 4294967296
    rw [pv.2.1]
    exact h4
  · show (proc_builtin_scsi env itf cmdl bufsize).2.2.ep_in
      ≠ (proc_builtin_scsi env itf cmdl bufsize).2.2.ep_out
    rw [pv.2.2.2.1, pv.2.2.2.2.1]
    exact h5
  · intro hor
    simp only [queue_in_itf] at hor
    rw [pv.2.1] at hor
    exact absurd hor hnrw
  · intro hr
    simp only [queue_in_itf] at hr
    rw [pv.2.1] at hr
    exact absurd (Or.inl hr) hnrw
  · intro hw
    simp only [queue_in_itf] at hw
    rw [pv.2.1] at hw
    exact absurd (Or.inr hw) hnrw
  · exact fun _ => hqo
  · intro hw
    simp only [queue_in_itf] at hw
    rw [pv.2.1] at hw
    exact absurd (Or.inr hw) hnrw
  · simpa [queue_in, pv.2.2.2.2.2.2.1, hxf, hqo] using
      Nat.mod_le (min r.toNat itf.cbw.total_bytes) 65536
  · intro hp2
    simp only [queue_in_itf] at hp2
    rw [pv.2.2.2.2.2.2.2.1, h6] at hp2
    exact absurd hp2 (by decide)

/-- Invariant preservation by the CMD-stage dispatch of `mscd_xfer_cb_core`
(the state already reflects the completed OUT transfer: both queues empty). -/
theorem mscd_inv_core_cmd (bufsz : Nat) (env : MscEnv)
    (henv : ∀ n, 0 < env.read10_ret n → env.read10_ret n ≤ (n : Int))
    (s : MscSys) (buf : List Nat) (nb : Nat)
    (h : mscd_inv s)
    (hstage : s.itf.stage = MscStage.cmd)
    (hp : s.itf.pending_io = false)
    (hqi : s.usb.queued_in = none)
    (hqo : s.usb.queued_out = none)
    (hbuf : ∀ b ∈ buf, b < 256) :
    mscd_inv (mscd_xfer_cb_core bufsz env s s.itf.ep_out buf nb) := by
  obtain ⟨b2, b3, b4, b5⟩ := mscd_inv_basics s h
  have htb32 : (parse_cbw buf).total_bytes < 4294967296 := le32_lt buf hbuf 8
  simp only [mscd_xfer_cb_core, hstage]
  rw [if_neg (by simp)]
  split_ifs with cA cB cC cD cE cG cH cI cJ cK cL cM cN cO
  · refine mscd_inv_fail_scsi_op _ _ ?_ ?_ ?_ ?_ ?_
    · exact Nat.zero_le _
    · exact le_refl _
    · exact htb32
    · exact b5
    · exact hp
  · have hv : rdwr10_validate_cmd (parse_cbw buf) = MSC_CSW_STATUS_PASSED :=
      not_ne_iff.mp cC
    have hdirR := validate_read10_dir (parse_cbw buf) cE cD hv
    refine mscd_inv_proc_read10_cmd bufsz env henv _ ?_ ?_ ?_ ?_ ?_ ?_ ?_
    · refine mscd_inv_of_data _ ?_ ?_ ?_ ?_ ?_ ?_ ?_ ?_ ?_ ?_ ?_ ?_
      · rfl
      · exact Nat.zero_le _
      · exact le_refl _
      · exact htb32
      · exact b5
      · exact fun _ => rfl
      · exact fun _ => hdirR
      · exact fun hw => absurd (cE.symm.trans hw) (by decide)
      · exact fun _ => hqo
      · exact fun _ => hqi
      · simp [hqi, hqo]
      · exact fun hp2 => absurd hp2 (by simp [hp])
    · rfl
    · exact hp
    · exact hdirR
    · rfl
    · exact hqi
    · exact hqo
  · have hv : rdwr10_validate_cmd (parse_cbw buf) = MSC_CSW_STATUS_PASSED :=
      not_ne_iff.mp cC
    have hcw : (parse_cbw buf).command.getD 0 0 = SCSI_CMD_WRITE_10 :=
      cB.resolve_left cE
    have hdirW := validate_write10_dir (parse_cbw buf) hcw cD hv
    refine mscd_inv_proc_write10_cmd bufsz env _ ?_ ?_ ?_ ?_ ?_ ?_
    · refine mscd_inv_of_data _ ?_ ?_ ?_ ?_ ?_ ?_ ?_ ?_ ?_ ?_ ?_ ?_
      · rfl
      · exact Nat.zero_le _
      · exact le_refl _
      · exact htb32
      · exact b5
      · exact fun _ => rfl
      · exact fun hr => absurd hr cE
      · exact fun _ => hdirW
      · exact fun _ => hqo
      · exact fun _ => hqi
      · simp [hqi, hqo]
      · exact fun hp2 => absurd hp2 (by simp [hp])
    · rfl
    · exact hp
    · exact hdirW
    · rfl
    · exact hqi
  · refine mscd_inv_of_status _ ?_ ?_ ?_ ?_ ?_ ?_
    · rfl
    · exact Nat.zero_le _
    · exact le_refl _
    · exact htb32
    · exact b5
    · exact hp
  · refine mscd_inv_fail_scsi_op _ _ ?_ ?_ ?_ ?_ ?_
    · exact Nat.zero_le _
    · exact le_refl _
    · exact htb32
    · exact b5
    · exact hp
  · refine mscd_inv_of_data _ ?_ ?_ ?_ ?_ ?_ ?_ ?_ ?_ ?_ ?_ ?_ ?_
    · rfl
    · exact Nat.zero_le _
    · exact le_refl _
    · exact htb32
    · exact b5
    · exact fun _ => rfl
    · exact fun hr => absurd (Or.inl hr) cB
    · exact fun hw => absurd (Or.inr hw) cB
    · exact fun hd => absurd hd (by simp [cG.2])
    · exact fun _ => hqi
    · simpa [hqi] using Nat.mod_le (parse_cbw buf).total_bytes 65536
    · exact fun hp2 => absurd hp2 (by simp [hp])
  · refine mscd_inv_fail_builtin env _ _ bufsz s.usb _ ?_ ?_ ?_ ?_ ?_
    · exact Nat.zero_le _
    · exact le_refl _
    · exact htb32
    · exact b5
    · exact hp
  · refine mscd_inv_fail_builtin env _ _ bufsz s.usb _ ?_ ?_ ?_ ?_ ?_
    · exact Nat.zero_le _
    · exact le_refl _
    · exact htb32
    · exact b5
    · exact hp
  · refine mscd_inv_status_builtin env _ _ bufsz s.usb ?_ ?_ ?_ ?_ ?_
    · exact Nat.zero_le _
    · exact le_refl _
    · exact htb32
    · exact b5
    · exact hp
  · refine mscd_inv_queue_in_builtin env _ _ bufsz s.usb _ ?_ ?_ ?_ ?_ ?_ ?_ ?_
    · rfl
    · rfl
    · exact htb32
    · exact b5
    · exact hp
    · exact cB
    · exact hqo
  · refine mscd_inv_fail_builtin env _ _ bufsz s.usb _ ?_ ?_ ?_ ?_ ?_
    · exact Nat.zero_le _
    · exact le_refl _
    · exact htb32
    · exact b5
    · exact hp
  · refine mscd_inv_fail_builtin env _ _ bufsz s.usb _ ?_ ?_ ?_ ?_ ?_
    · exact Nat.zero_le _
    · exact le_refl _
    · exact htb32
    · exact b5
    · exact hp
  · refine mscd_inv_status_builtin env _ _ bufsz s.usb ?_ ?_ ?_ ?_ ?_
    · exact Nat.zero_le _
    · exact le_refl _
    · exact htb32
    · exact b5
    · exact hp
  · refine mscd_inv_queue_in_builtin env _ _ bufsz s.usb _ ?_ ?_ ?_ ?_ ?_ ?_ ?_
    · rfl
    · rfl
    · exact htb32
    · exact b5
    · exact hp
    · exact cB
    · exact hqo
  · refine mscd_inv_stall_ep _ _ ?_
    refine mscd_inv_stall_ep _ _ ?_
    refine mscd_inv_of_need_reset _ ?_ ?_ ?_ ?_ ?_ ?_
    · rfl
    · exact b2
    · exact b3
    · exact b4
    · exact b5
    · exact hp

theorem mscd_inv_set_xferred_data (s : MscSys) (x : Nat)
    (h : mscd_inv s)
    (hst : s.itf.stage = MscStage.data)
    (hp : s.itf.pending_io = false)
    (hx : x + s.usb.queued_in.getD 0 + s.usb.queued_out.getD 0
            ≤ s.itf.total_len) :
    mscd_inv { s with itf :=
        { s.itf with
          xferred_len := x
          stage := MscStage.data } } := by
  obtain ⟨b2, b3, b4, b5⟩ := mscd_inv_basics s h
  obtain ⟨d1, d2, d3, d4, d5, d6⟩ := mscd_inv_data_facts s h hst
  refine mscd_inv_of_data _ ?_ ?_ ?_ ?_ ?_ ?_ ?_ ?_ ?_ ?_ ?_ ?_
  · rfl
  · show x ≤ s.itf.total_len
    omega
  · exact b3
  · exact b4
  · exact b5
  · exact d1
  · exact d2
  · exact d3
  · exact d4
  · exact d5
  · exact hx
  · intro hp2
    exact absurd hp2 (by simp [hp])

theorem mscd_inv_fail_to_status (s0 : MscSys) (st : Nat)
    (h : mscd_inv (fail_scsi_op s0 st))
    (hp : s0.itf.pending_io = false) :
    mscd_inv { fail_scsi_op s0 st with
               itf := { (fail_scsi_op s0 st).itf with
                        stage := MscStage.status } } := by
  obtain ⟨b2, b3, b4, b5⟩ := mscd_inv_basics _ h
  refine mscd_inv_of_status _ ?_ ?_ ?_ ?_ ?_ ?_
  · rfl
  · exact b2
  · exact b3
  · exact b4
  · exact b5
  · show (fail_scsi_op s0 st).itf.pending_io = false
    rw [(fail_scsi_op_itf s0 st).2.2.2.2.2.2.1]
    exact hp

/-- Invariant preservation by the DATA-stage dispatch after an IN
completion (the state already reflects the released IN transfer). -/
theorem mscd_inv_core_data_in (bufsz : Nat) (env : MscEnv)
    (henv : ∀ n, 0 < env.read10_ret n → env.read10_ret n ≤ (n : Int))
    (s : MscSys) (ep : Nat) (buf : List Nat) (nb : Nat)
    (h : mscd_inv s)
    (hstage : s.itf.stage = MscStage.data)
    (hp : s.itf.pending_io = false)
    (hqi : s.usb.queued_in = none)
    (hncw : s.itf.cbw.command.getD 0 0 ≠ SCSI_CMD_WRITE_10)
    (hbound : s.itf.xferred_len + nb + s.usb.queued_out.getD 0
                ≤ s.itf.total_len) :
    mscd_inv (mscd_xfer_cb_core bufsz env s ep buf nb) := by
  obtain ⟨b2, b3, b4, b5⟩ := mscd_inv_basics s h
  obtain ⟨d1, d2, d3, d4, d5, d6⟩ := mscd_inv_data_facts s h hstage
  simp only [mscd_xfer_cb_core, hstage]
  split_ifs with e1 e2 e3 e4 e5 e6 e7 e8
  · exact h
  · refine mscd_inv_of_status _ ?_ ?_ ?_ ?_ ?_ ?_
    · rfl
    · show (s.itf.xferred_len + nb) % 4294967296 ≤ s.itf.total_len
      omega
    · exact b3
    · exact b4
    · exact b5
    · exact hp
  · refine mscd_inv_proc_read10_cmd bufsz env henv _ ?_ ?_ ?_ ?_ ?_ ?_ ?_
    · refine mscd_inv_set_xferred_data s _ h hstage hp ?_
      simp only [hqi, Option.getD_none]
      omega
    · rfl
    · exact hp
    · exact d2 e2
    · exact d1 (Or.inl e2)
    · exact hqi
    · exact d4 (d2 e2)
  · refine mscd_inv_fail_to_status _ _ ?_ ?_
    · refine mscd_inv_fail_scsi_op _ _ ?_ ?_ ?_ ?_ ?_
      · show (s.itf.xferred_len + nb) % 4294967296 ≤ s.itf.total_len
        omega
      · exact b3
      · exact b4
      · exact b5
      · exact hp
    · exact hp
  · refine mscd_inv_fail_scsi_op _ _ ?_ ?_ ?_ ?_ ?_
    · show (s.itf.xferred_len + nb) % 4294967296 ≤ s.itf.total_len
      omega
    · exact b3
    · exact b4
    · exact b5
    · exact hp
  · refine mscd_inv_of_status _ ?_ ?_ ?_ ?_ ?_ ?_
    · rfl
    · show (s.itf.xferred_len + nb) % 4294967296 ≤ s.itf.total_len
      omega
    · exact b3
    · exact b4
    · exact b5
    · exact hp
  · refine mscd_inv_set_xferred_data s _ h hstage hp ?_
    simp only [hqi, Option.getD_none]
    omega
  · refine mscd_inv_of_status _ ?_ ?_ ?_ ?_ ?_ ?_
    · rfl
    · show (s.itf.xferred_len + nb) % 4294967296 ≤ s.itf.total_len
      omega
    · exact b3
    · exact b4
    · exact b5
    · exact hp
  · refine mscd_inv_set_xferred_data s _ h hstage hp ?_
    simp only [hqi, Option.getD_none]
    omega

/-- Invariant preservation by the DATA-stage dispatch after an OUT
completion (the state already reflects the released OUT transfer; the
armed OUT transfer implies the command direction was Data-Out). -/
theorem mscd_inv_core_data_out (bufsz : Nat) (env : MscEnv)
    (s : MscSys) (ep : Nat) (buf : List Nat) (nb : Nat)
    (h : mscd_inv s)
    (hstage : s.itf.stage = MscStage.data)
    (hp : s.itf.pending_io = false)
    (hqo : s.usb.queued_out = none)
    (hdirF : is_data_in s.itf.cbw.dir = false)
    (hbound : s.itf.xferred_len + nb + s.usb.queued_in.getD 0
                ≤ s.itf.total_len) :
    mscd_inv (mscd_xfer_cb_core bufsz env s ep buf nb) := by
  obtain ⟨b2, b3, b4, b5⟩ := mscd_inv_basics s h
  obtain ⟨d1, d2, d3, d4, d5, d6⟩ := mscd_inv_data_facts s h hstage
  have hncr : s.itf.cbw.command.getD 0 0 ≠ SCSI_CMD_READ_10 :=
    fun hr => by simp [d2 hr] at hdirF
  simp only [mscd_xfer_cb_core, hstage]
  split_ifs with e1 e2 e3 e4 e5
  · exact h
  · refine mscd_inv_proc_write10_host_data bufsz env _ _ ?_ ?_ ?_ ?_ ?_ ?_ ?_ ?_
    · exact h
    · exact hstage
    · exact hp
    · exact d3 e2
    · exact d1 (Or.inr e2)
    · exact d5 e2
    · exact hqo
    · omega
  · refine mscd_inv_fail_to_status _ _ ?_ ?_
    · refine mscd_inv_fail_scsi_op _ _ ?_ ?_ ?_ ?_ ?_
      · show (s.itf.xferred_len + nb) % 4294967296 ≤ s.itf.total_len
        omega
      · exact b3
      · exact b4
      · exact b5
      · exact hp
    · exact hp
  · refine mscd_inv_fail_scsi_op _ _ ?_ ?_ ?_ ?_ ?_
    · show (s.itf.xferred_len + nb) % 4294967296 ≤ s.itf.total_len
      omega
    · exact b3
    · exact b4
    · exact b5
    · exact hp
  · refine mscd_inv_of_status _ ?_ ?_ ?_ ?_ ?_ ?_
    · rfl
    · show (s.itf.xferred_len + nb) % 4294967296 ≤ s.itf.total_len
      omega
    · exact b3
    · exact b4
    · exact b5
    · exact hp
  · refine mscd_inv_set_xferred_data s _ h hstage hp ?_
    simp only [hqo, Option.getD_none]
    omega

/-- Preservation of `mscd_inv` by every valid driver step, for any
application whose read10 callback never reports more bytes than requested. -/
theorem mscd_inv_mscd_step (bufsz : Nat) (env : MscEnv)
    (henv : ∀ n, 0 < env.read10_ret n → env.read10_ret n ≤ (n : Int))
    (s : MscSys) (e : MscEvent)
    (h : mscd_inv s) (hv : validEvent s e) :
    mscd_inv (mscd_step bufsz env s e) := by
  obtain ⟨b2, b3, b4, b5⟩ := mscd_inv_basics s h
  cases e with
  | ctrl request => exact mscd_inv_control_step env s request h hv
  | asyncDone b =>
    simp only [mscd_step, tud_msc_async_io_done]
    split_ifs with hpt hb0
    · show mscd_inv (proc_async_io_done bufsz env s TUD_MSC_RET_ERROR)
      refine mscd_inv_proc_async_io_done bufsz env s _ h ?_
      intro _
      have hnn : (0:Int) ≤ (s.itf.pending_io_bound : Int) := Int.natCast_nonneg _
      simp only [TUD_MSC_RET_ERROR]
      omega
    · show mscd_inv (proc_async_io_done bufsz env s b)
      refine mscd_inv_proc_async_io_done bufsz env s _ h ?_
      intro hp2
      exact hv hp2
    · exact h
  | xfer ep buf nb =>
    obtain ⟨hp, hcase⟩ := hv
    simp only [mscd_step, mscd_xfer_cb]
    rcases hcase with ⟨hin, hqne, hbnd⟩ | ⟨hout, hqne, hbnd, hbuf⟩
    · rw [if_pos hin]
      refine mscd_inv_status_wrap _ ?_
      have hinv1 := mscd_inv_unqueue_in s h
      cases hstc : s.itf.stage with
      | cmd => exact absurd (mscd_inv_cmd_queued_in s h hstc) hqne
      | status =>
        simp only [mscd_xfer_cb_core, hstc]
        exact hinv1
      | need_reset =>
        simp only [mscd_xfer_cb_core, hstc]
        exact hinv1
      | status_sent =>
        simp only [mscd_xfer_cb_core, hstc]
        split_ifs with hc
        · refine mscd_inv_prepare_cbw _ ?_ ?_ ?_ ?_ ?_ ?_
          · exact b2
          · exact b3
          · exact b4
          · exact b5
          · exact hp
          · rfl
        · exact hinv1
      | data =>
        obtain ⟨d1, d2, d3, d4, d5, d6⟩ := mscd_inv_data_facts s h hstc
        have hncw : s.itf.cbw.command.getD 0 0 ≠ SCSI_CMD_WRITE_10 :=
          fun hw => hqne (d5 hw)
        have hqin : nb ≤ s.usb.queued_in.getD 0 := hbnd
        refine mscd_inv_core_data_in bufsz env henv _ ep buf nb hinv1
          ?_ ?_ ?_ ?_ ?_
        · exact hstc
        · exact hp
        · rfl
        · exact hncw
        · show s.itf.xferred_len + nb + s.usb.queued_out.getD 0
            ≤ s.itf.total_len
          omega
    · subst hout
      rw [if_neg (fun hee => b5 hee.symm), if_pos rfl]
      refine mscd_inv_status_wrap _ ?_
      have hinv1 := mscd_inv_unqueue_out s h
      cases hstc : s.itf.stage with
      | cmd =>
        refine mscd_inv_core_cmd bufsz env henv _ buf nb hinv1 ?_ ?_ ?_ ?_ ?_
        · exact hstc
        · exact hp
        · exact mscd_inv_cmd_queued_in s h hstc
        · rfl
        · exact hbuf
      | status =>
        simp only [mscd_xfer_cb_core, hstc]
        exact hinv1
      | need_reset =>
        simp only [mscd_xfer_cb_core, hstc]
        exact hinv1
      | status_sent =>
        simp only [mscd_xfer_cb_core, hstc]
        split_ifs with hc
        · exact absurd hc.1.symm b5
        · exact hinv1
      | data =>
        obtain ⟨d1, d2, d3, d4, d5, d6⟩ := mscd_inv_data_facts s h hstc
        have hdirF : is_data_in s.itf.cbw.dir = false := by
          cases hd : is_data_in s.itf.cbw.dir
          · rfl
          · exact absurd (d4 hd) hqne
        refine mscd_inv_core_data_out bufsz env _ _ buf nb hinv1 ?_ ?_ ?_ ?_ ?_
        · exact hstc
        · exact hp
        · rfl
        · exact hdirF
        · show s.itf.xferred_len + nb + s.usb.queued_in.getD 0
            ≤ s.itf.total_len
          omega

/-! ## Claim C4: the counter ordering invariant -/

/-- C4.  After `mscd_open` the BOT invariant (which contains
`xferred_len ≤ total_len ≤ cbw.total_bytes`; in `Nat`, `0 ≤ xferred_len`
is automatic) holds, it is preserved by every valid driver event —
bulk-transfer completions, control requests and deferred asynchronous
completions — for any application whose read10 callback never reports
more bytes than requested, and it entails the claimed counter ordering. -/
theorem C4_counter_ordering_invariant (bufsz : Nat) (env : MscEnv)
    (henv : ∀ n, 0 < env.read10_ret n → env.read10_ret n ≤ (n : Int))
    (ep_in ep_out : Nat) (hne : ep_in ≠ ep_out) :
    mscd_inv (mscd_open_init ep_in ep_out) ∧
    (∀ s e, mscd_inv s → validEvent s e →
       mscd_inv (mscd_step bufsz env s e)) ∧
    (∀ s, mscd_inv s →
       s.itf.xferred_len ≤ s.itf.total_len ∧
       s.itf.total_len ≤ s.itf.cbw.total_bytes) := by
  refine ⟨?_, ?_, ?_⟩
  · refine mscd_inv_of_cmd _ ?_ ?_ ?_ ?_ ?_ ?_ ?_
    · rfl
    · exact le_refl _
    · exact le_refl _
    · show (0:Nat) < 4294967296
      decide
    · exact hne
    · rfl
    · rfl
  · exact fun s e h hv => mscd_inv_mscd_step bufsz env henv s e h hv
  · exact fun s h => ⟨h.1, h.2.1⟩

/-- Witness for C4: the freshly opened interface with endpoints 0x81/0x01
satisfies the invariant, and so does the state after a valid 31-byte OUT
completion carrying an all-zero (invalid-signature) CBW. -/
theorem C4_counter_ordering_invariant_witness :
    mscd_inv (mscd_open_init 129 1) ∧
    validEvent (mscd_open_init 129 1) (MscEvent.xfer 1 (List.replicate 31 0) 31) ∧
    mscd_inv (mscd_step 512 trivEnv (mscd_open_init 129 1)
      (MscEvent.xfer 1 (List.replicate 31 0) 31)) := by
  have h := C4_counter_ordering_invariant 512 trivEnv
    (fun n hn => absurd hn (by show ¬(0:Int) < -1; decide)) 129 1 (by decide)
  exact ⟨h.1, by decide, h.2.1 _ _ h.1 (by decide)⟩

/-! ## Claim C1: CSW data residue -/

/-- C1.  For every reachable situation (an invariant state and a valid
event) after which a CSW has been armed (stage STATUS_SENT — this is the
unique point where `send_csw` has run, whether after a completed data
phase or after `fail_scsi_op` set up the STATUS stage that
`proc_stage_status` completed), the CSW's `data_residue` equals
`cbw.total_bytes - xferred_len` at that moment, and hence the residue is
at most `cbw.total_bytes` (nonnegativity is automatic in `Nat`). -/
theorem C1_csw_residue (bufsz : Nat) (env : MscEnv)
    (henv : ∀ n, 0 < env.read10_ret n → env.read10_ret n ≤ (n : Int))
    (s : MscSys) (e : MscEvent)
    (h : mscd_inv s) (hv : validEvent s e)
    (hsent : (mscd_step bufsz env s e).itf.stage = MscStage.status_sent) :
    (mscd_step bufsz env s e).itf.csw.data_residue
      = (mscd_step bufsz env s e).itf.cbw.total_bytes
        - (mscd_step bufsz env s e).itf.xferred_len ∧
    (mscd_step bufsz env s e).itf.csw.data_residue
      ≤ (mscd_step bufsz env s e).itf.cbw.total_bytes := by
  have hinv := mscd_inv_mscd_step bufsz env henv s e h hv
  have hres := mscd_inv_status_sent_residue _ hinv hsent
  exact ⟨hres, by omega⟩

/-- A state in the STATUS stage of a command that moved 256 of 512 bytes. -/
def c1_state : MscSys :=
  { itf := { cbw := { signature := MSC_CBW_SIGNATURE, tag := 7, total_bytes := 512,
                      dir := 128, lun := 0, cmd_len := 10,
                      command := [0x28, 0, 0, 0, 0, 0, 0, 0, 1, 0, 0, 0, 0, 0, 0, 0] }
             csw := { signature := MSC_CSW_SIGNATURE, tag := 7, data_residue := 0,
                      status := 0 }
             ep_in := 129, ep_out := 1, total_len := 512, xferred_len := 256,
             stage := MscStage.status, sense_key := 0, add_sense_code := 0,
             add_sense_qualifier := 0, pending_io := false, pending_io_bound := 0 }
    usb := { in_stalled := true, out_stalled := false, queued_in := none,
             queued_out := none } }

/-- Clear-Feature(ENDPOINT_HALT) on the bulk IN endpoint 0x81. -/
def c1_clear_in : tusb_control_request_t :=
  { recipient := TUSB_REQ_RCPT_ENDPOINT, rtype := TUSB_REQ_TYPE_STANDARD,
    bRequest := TUSB_REQ_CLEAR_FEATURE, wValue := TUSB_REQ_FEATURE_EDPT_HALT,
    wIndex := 129, wLength := 0 }

/-- Witness for C1: clearing the IN stall in the STATUS stage sends the
CSW; its residue is 512 - 256 = 256. -/
theorem C1_csw_residue_witness :
    mscd_inv c1_state ∧
    (mscd_step 512 trivEnv c1_state (MscEvent.ctrl c1_clear_in)).itf.stage
      = MscStage.status_sent ∧
    (mscd_step 512 trivEnv c1_state (MscEvent.ctrl c1_clear_in)).itf.csw.data_residue
      = (mscd_step 512 trivEnv c1_state
          (MscEvent.ctrl c1_clear_in)).itf.cbw.total_bytes
        - (mscd_step 512 trivEnv c1_state
            (MscEvent.ctrl c1_clear_in)).itf.xferred_len :=
  ⟨by decide, by decide,
   (C1_csw_residue 512 trivEnv
      (fun n hn => absurd hn (by show ¬(0:Int) < -1; decide)) c1_state (MscEvent.ctrl c1_clear_in) (by decide) (by decide) (by decide)).1⟩

/-! ## Claim C5: reset recovery in NEED_RESET -/

/-- C5.  In the NEED_RESET stage: every Clear-Feature(ENDPOINT_HALT)
request leaves the stage at NEED_RESET and re-stalls the endpoint named in
`wIndex`; every valid event whose request is not the MSC Reset class
request leaves the stage at NEED_RESET; and the MSC Reset request returns
the stage to CMD with the sense triple and both counters cleared. -/
theorem C5_need_reset_recovery (bufsz : Nat) (env : MscEnv) (s : MscSys)
    (h : mscd_inv s)
    (hst : s.itf.stage = MscStage.need_reset) :
    (∀ r : tusb_control_request_t, is_clear_feature_halt r →
       (control_step env s r).itf.stage = MscStage.need_reset ∧
       (r.wIndex % 256 = s.itf.ep_in →
          (control_step env s r).usb.in_stalled = true) ∧
       (r.wIndex % 256 = s.itf.ep_out →
          (control_step env s r).usb.out_stalled = true)) ∧
    (∀ e : MscEvent, validEvent s e →
       (∀ r, e = MscEvent.ctrl r → ¬ is_bot_reset r) →
       (mscd_step bufsz env s e).itf.stage = MscStage.need_reset) ∧
    (∀ r : tusb_control_request_t, is_bot_reset r →
       (control_step env s r).itf.stage = MscStage.cmd ∧
       (control_step env s r).itf.sense_key = 0 ∧
       (control_step env s r).itf.add_sense_code = 0 ∧
       (control_step env s r).itf.add_sense_qualifier = 0 ∧
       (control_step env s r).itf.total_len = 0 ∧
       (control_step env s r).itf.xferred_len = 0) := by
  obtain ⟨b2, b3, b4, b5⟩ := mscd_inv_basics s h
  refine ⟨?_, ?_, ?_⟩
  · intro r hcf
    have hc : control_step env s r
        = stall_ep (clear_stall_ep s (r.wIndex % 256)) (r.wIndex % 256) := by
      simp [control_step, mscd_control_xfer_cb, hcf, hst]
    refine ⟨?_, ?_, ?_⟩
    · rw [hc]
      simp [hst]
    · intro hie
      rw [hc]
      simp [stall_ep, clear_stall_ep, hie]
    · intro hoe
      have hne2 : s.itf.ep_out ≠ s.itf.ep_in := fun hh => b5 hh.symm
      rw [hc]
      simp [stall_ep, clear_stall_ep, hoe, hne2]
  · intro e hv hnr
    cases e with
    | xfer ep buf nb =>
      simp only [mscd_step, mscd_xfer_cb]
      split_ifs <;> simp [mscd_xfer_cb_core, status_wrap, hst]
    | ctrl r =>
      have hreq := hnr r rfl
      by_cases hcf : is_clear_feature_halt r
      · show (control_step env s r).itf.stage = MscStage.need_reset
        have hc : control_step env s r
            = stall_ep (clear_stall_ep s (r.wIndex % 256)) (r.wIndex % 256) := by
          simp [control_step, mscd_control_xfer_cb, hcf, hst]
        rw [hc]
        simp [hst]
      · show (control_step env s r).itf.stage = MscStage.need_reset
        simp only [control_step, mscd_control_xfer_cb]
        simp only [hcf, if_false, if_neg (by simp : ¬CONTROL_STAGE_SETUP ≠ CONTROL_STAGE_SETUP)]
        split_ifs with g1 g2 g3 g4 g5 <;>
          first
            | exact hst
            | exact absurd ⟨not_ne_iff.mp g1, g2, g3.1, g3.2⟩ hreq
            | simp [proc_bot_reset, hst]
    | asyncDone b =>
      have hpf : s.itf.pending_io = false :=
        mscd_inv_pending_false_of_stage s h (by simp [hst])
      simp [mscd_step, tud_msc_async_io_done, hpf, hst]
  · intro r hbr
    have hrt := hbr.1
    have hbrq := hbr.2.1
    have hwv := hbr.2.2.1
    have hwl := hbr.2.2.2
    have hncf : ¬ is_clear_feature_halt r := by
      intro hcf
      have h1 := hcf.1
      rw [hrt] at h1
      exact absurd h1 (by decide)
    have hc : control_step env s r = proc_bot_reset s := by
      simp [control_step, mscd_control_xfer_cb, hncf, hrt, hbrq, hwv, hwl]
    rw [hc]
    exact ⟨rfl, rfl, rfl, rfl, rfl, rfl⟩

/-- A stalled NEED_RESET state with stale sense data and counters. -/
def c5_state : MscSys :=
  { itf := { cbw := { signature := MSC_CBW_SIGNATURE, tag := 3, total_bytes := 512,
                      dir := 0, lun := 0, cmd_len := 10,
                      command := [0x2A, 0, 0, 0, 0, 0, 0, 0, 1, 0, 0, 0, 0, 0, 0, 0] }
             csw := { signature := MSC_CSW_SIGNATURE, tag := 3, data_residue := 512,
                      status := 2 }
             ep_in := 129, ep_out := 1, total_len := 512, xferred_len := 64,
             stage := MscStage.need_reset, sense_key := 5, add_sense_code := 0x24,
             add_sense_qualifier := 0, pending_io := false, pending_io_bound := 0 }
    usb := { in_stalled := true, out_stalled := true, queued_in := none,
             queued_out := none } }

/-- Clear-Feature(ENDPOINT_HALT) on the bulk OUT endpoint 0x01. -/
def c5_clear_out : tusb_control_request_t :=
  { recipient := TUSB_REQ_RCPT_ENDPOINT, rtype := TUSB_REQ_TYPE_STANDARD,
    bRequest := TUSB_REQ_CLEAR_FEATURE, wValue := TUSB_REQ_FEATURE_EDPT_HALT,
    wIndex := 1, wLength := 0 }

/-- The MSC Bulk-Only Mass Storage Reset class request. -/
def c5_reset : tusb_control_request_t :=
  { recipient := 1, rtype := TUSB_REQ_TYPE_CLASS,
    bRequest := MSC_REQ_RESET, wValue := 0, wIndex := 0, wLength := 0 }

/-- Witness for C5: in NEED_RESET a Clear-Feature on the OUT endpoint
leaves NEED_RESET with the endpoint re-stalled, while the Reset request
returns to CMD and clears the sense key. -/
theorem C5_need_reset_recovery_witness :
    mscd_inv c5_state ∧
    (control_step trivEnv c5_state c5_clear_out).itf.stage
      = MscStage.need_reset ∧
    (control_step trivEnv c5_state c5_clear_out).usb.out_stalled = true ∧
    (control_step trivEnv c5_state c5_reset).itf.stage = MscStage.cmd ∧
    (control_step trivEnv c5_state c5_reset).itf.sense_key = 0 := by
  have h := C5_need_reset_recovery 512 trivEnv c5_state (by decide) (by decide)
  exact ⟨by decide, (h.1 c5_clear_out (by decide)).1,
    (h.1 c5_clear_out (by decide)).2.2 (by decide),
    (h.2.2 c5_reset (by decide)).1, (h.2.2 c5_reset (by decide)).2.1⟩
